import Mathlib

/-!
Verification development for the survey/feedback backend
(`stefan-backend-pivotal`): a shallow embedding of the answer-submission,
completion-accounting and aggregate-reporting logic from
`src/controller/user.py`, `src/controller/admin.py` and
`src/database/models.py`, together with theorems settling the frozen
claims about that logic.

Modelling conventions:
* machine integers and database `BigInteger` keys are `Int`;
* UUIDs are `String`;
* timestamps (`DateTime`) are abstract instants modelled as `Int`;
* `Optional`/nullable columns are `Option`;
* the relational store is a record of lists of rows, queried with
  `List.find?` / `List.filter`, mirroring the SQLAlchemy queries;
* `datetime.fromisoformat` is an external library call and is passed in
  as a parameter `parseIso : String → Option Int`, as is the current
  server time `now : Int`;
* the OpenAI text-generation collaborator is a parameter
  `gen : String → Except String String`; report generation additionally
  returns the list of prompts sent to it and the number of e-mails sent,
  so that "no external call happened" is directly observable;
* Python `round(x, n)` uses round-half-to-even, modelled exactly on `ℚ`;
  `statistics.stdev` (square root of the sample variance, then rounded
  to 2 decimals) is modelled exactly on `ℚ` via integer square roots.
-/

namespace Survey

/-- String constant used when mirroring Python's `s.replace('Z', '+00:00')`. -/
def zMark : String := "Z"

/-- String constant used when mirroring Python's `s.replace('Z', '+00:00')`. -/
def utcOffset : String := "+00:00"

/-! ## Data model (src/database/models.py) -/

/-- Row of table `questions` (models.py, class `Question`). -/
structure Question where
  id : Int
  section_id : Option Int
  question : String
  rating_3_text : Option String
  rating_neg3_text : Option String
  show_rating_scale : Bool
deriving Repr, DecidableEq

/-- Row of table `user_answers` (models.py, class `UserAnswer`). -/
structure UserAnswer where
  id : Int
  question_id : Int
  user_id : String
  answer : Option String
  rating : Option Int
  feedback : Option String
  feedback_generated : Bool
  submitted_at : Option Int
deriving Repr, DecidableEq

/-- Row of table `users` (models.py, class `User`): the integer-keyed
internal account. -/
structure User where
  id : Int
  email : String
  name : String
  hashed_password : String
  company_id : Option Int
deriving Repr, DecidableEq

/-- Row of table `profiles` (models.py, class `Profile`): the UUID-keyed
end-user identity. -/
structure Profile where
  id : String
  email : String
  name : String
  company_id : Option Int
deriving Repr, DecidableEq

/-- Row of table `companies` (models.py, class `Company`). -/
structure Company where
  id : Int
  name : String
deriving Repr, DecidableEq

/-- Row of table `sections` (models.py, class `Section`). -/
structure Section where
  id : Int
  label : Option String
  title : Option String
  company_id : Option Int
deriving Repr, DecidableEq

/-- The persistence store: one list of rows per table, plus the id
sequence the database uses for freshly inserted `user_answers` rows
(`db.flush()` materialises the next sequence value). -/
structure Store where
  questions : List Question
  answers : List UserAnswer
  users : List User
  profiles : List Profile
  companies : List Company
  sections : List Section
  nextAnswerId : Int
deriving Repr, DecidableEq

/-- The authenticated identity returned by `get_current_user`
(user.py): either an internal integer-keyed `User` or a UUID-keyed
`Profile`. -/
inductive CurrentUser where
  | internalUser (u : User)
  | profileUser (p : Profile)
deriving Repr, DecidableEq

/-- Request body element of `POST /submit-answer/`
(basemodel.py, class `AnswerSubmit`). -/
structure AnswerSubmit where
  question_id : Int
  answer : String
  rating : Option Int
  submitted_at : Option String
deriving Repr, DecidableEq

/-- Request body of `POST /submit-answer/{question_id}/`
(basemodel.py, class `AnswerCreate`). -/
structure AnswerCreate where
  answer : String
  rating : Option Int
deriving Repr, DecidableEq

/-! ## List helpers mirroring SQLAlchemy idioms -/

/-- Mutating the first row returned by `.filter(...).first()` and leaving
every other row untouched: replace the first element satisfying `p`
by its image under `f`. -/
def updateFirst (p : α → Bool) (f : α → α) : List α → List α
  | [] => []
  | x :: xs => if p x then f x :: xs else x :: updateFirst p f xs

/-! ## Answer upsert engine (user.py, `submit_answers`, lines 177-249) -/

/-- user.py lines 197-210: resolve the `submitted_at` of one submitted
tuple.  Python truthiness makes an absent or empty string fall through
to `datetime.now()`; otherwise the code first tries
`fromisoformat(s.replace('Z', '+00:00'))`, then `fromisoformat(s)`,
then falls back to `datetime.now()`. -/
def resolveSubmittedAt (parseIso : String → Option Int) (now : Int)
    (s : Option String) : Int :=
  match s with
  | none => now
  | some str =>
    if str = "" then now
    else
      match parseIso (str.replace zMark utcOffset) with
      | some t => t
      | none =>
        match parseIso str with
        | some t => t
        | none => now

/-- The row filter `UserAnswer.user_id == uid, UserAnswer.question_id
== qid` used by both submission endpoints. -/
def pairPred (uid : String) (qid : Int) (a : UserAnswer) : Bool :=
  decide (a.user_id = uid ∧ a.question_id = qid)

/-- The row filter `Question.id == qid`. -/
def qPred (qid : Int) (q : Question) : Bool :=
  decide (q.id = qid)

/-- user.py lines 218-223 / 273-276: the in-place mutation of an
existing answer row — only `answer`, `rating` and `submitted_at` are
assigned. -/
def overwriteWith (ansText : String) (rating : Option Int) (ts : Int)
    (a : UserAnswer) : UserAnswer :=
  { a with answer := some ansText, rating := rating, submitted_at := some ts }

/-- user.py lines 225-237 / 277-287: the freshly inserted answer row —
`feedback = None`, `feedback_generated = False`, id from the database
sequence. -/
def freshRow (newId : Int) (qid : Int) (uid : String) (ansText : String)
    (rating : Option Int) (ts : Int) : UserAnswer :=
  { id := newId, question_id := qid, user_id := uid, answer := some ansText,
    rating := rating, feedback := none, feedback_generated := false,
    submitted_at := some ts }

/-- One iteration of the `for answer_data in answers` loop of
`submit_answers` (user.py lines 191-242), threading the evolving store
(answers created earlier in the batch are flushed and therefore visible
to later iterations) and the `saved_answers` accumulator of
`(question_id, answer_id)` pairs. -/
def submitOne (parseIso : String → Option Int) (now : Int) (uid : String)
    (st : Store × List (Int × Int)) (t : AnswerSubmit) :
    Store × List (Int × Int) :=
  match st.1.questions.find? (qPred t.question_id) with
  | none => st
  | some _ =>
    match st.1.answers.find? (pairPred uid t.question_id) with
    | some existing =>
      let upd := updateFirst (pairPred uid t.question_id)
        (overwriteWith t.answer t.rating (resolveSubmittedAt parseIso now t.submitted_at))
        st.1.answers
      ({ st.1 with answers := upd }, st.2 ++ [(t.question_id, existing.id)])
    | none =>
      let ins := st.1.answers ++
        [freshRow st.1.nextAnswerId t.question_id uid t.answer t.rating
          (resolveSubmittedAt parseIso now t.submitted_at)]
      ({ st.1 with answers := ins, nextAnswerId := st.1.nextAnswerId + 1 },
       st.2 ++ [(t.question_id, st.1.nextAnswerId)])

/-- `POST /submit-answer/` (user.py, `submit_answers`): an internal
`User` identity is rejected with a 400; a `Profile` identity processes
every tuple of the batch in order and commits the whole batch, returning
the final store and the accepted `(question_id, answer_id)` pairs. -/
def submit_answers (parseIso : String → Option Int) (now : Int)
    (cu : CurrentUser) (answers : List AnswerSubmit) (db : Store) :
    Except (Nat × String) (Store × List (Int × Int)) :=
  match cu with
  | .internalUser _ =>
    .error (400, "Please use Profile account to submit answers")
  | .profileUser p =>
    .ok (answers.foldl (submitOne parseIso now p.id) (db, []))

/-- `POST /submit-answer/{question_id}/` (user.py, `submit_answer`,
lines 251-297): the single-answer legacy endpoint.  Unknown question ids
are a 404, internal `User` identities a 400; otherwise the
(user, question) row is updated in place or freshly created, always with
`submitted_at = now`.  Returns the updated store and the answer id. -/
def submit_answer (now : Int) (question_id : Int) (ans : AnswerCreate)
    (cu : CurrentUser) (db : Store) :
    Except (Nat × String) (Store × Int) :=
  match db.questions.find? (qPred question_id) with
  | none => .error (404, "Question not found")
  | some _ =>
    match cu with
    | .internalUser _ =>
      .error (400, "Please use Profile account to submit answers")
    | .profileUser p =>
      match db.answers.find? (pairPred p.id question_id) with
      | some existing =>
        let answers := updateFirst (pairPred p.id question_id)
          (overwriteWith ans.answer ans.rating now) db.answers
        .ok ({ db with answers := answers }, existing.id)
      | none =>
        let newRow := freshRow db.nextAnswerId question_id p.id ans.answer ans.rating now
        .ok ({ db with answers := db.answers ++ [newRow],
                       nextAnswerId := db.nextAnswerId + 1 },
             newRow.id)

/-- The (user, question) uniqueness invariant of the `user_answers`
table: no two rows share both their `user_id` and their `question_id`. -/
def PairUnique (l : List UserAnswer) : Prop :=
  l.Pairwise (fun a b => ¬(a.user_id = b.user_id ∧ a.question_id = b.question_id))

instance (l : List UserAnswer) : Decidable (PairUnique l) := by
  unfold PairUnique; infer_instance

/-! ## Python-style rounding on exact rationals -/

/-- Python `round` rounds ties to the nearest even integer
(round-half-to-even); modelled exactly on `ℚ`. -/
def roundHalfEven (q : ℚ) : ℤ :=
  if q - ⌊q⌋ = 1 / 2 then (if ⌊q⌋ % 2 = 0 then ⌊q⌋ else ⌊q⌋ + 1)
  else round q

/-- Python `round(x, ndigits)` for a nonnegative digit count,
modelled exactly on `ℚ`. -/
def pyRound (q : ℚ) (ndigits : ℕ) : ℚ :=
  (roundHalfEven (q * 10 ^ ndigits) : ℚ) / 10 ^ ndigits

/-! ## Aggregate rating statistics
(admin.py, `get_questions_by_company`, lines 297-313) -/

/-- admin.py line 300: the present (non-null) ratings of a list of
answers, in row order. -/
def ratingsOf (answers : List UserAnswer) : List Int :=
  answers.filterMap (fun a => a.rating)

/-- `statistics.mean` on integer ratings: the exact arithmetic mean. -/
def listMean (l : List Int) : ℚ :=
  (l.sum : ℚ) / l.length

/-- The sample variance `Σ (x - mean)² / (n - 1)` that underlies
`statistics.stdev`; only used on lists of length at least 2. -/
def sampleVariance (l : List Int) : ℚ :=
  ((l.map (fun x => ((x : ℚ) - listMean l) ^ 2)).sum) / ((l.length : ℚ) - 1)

/-- The integer `k` with `k = round-half-even(100 · √v)`, computed
exactly: `Nat.sqrt ⌊10000 v⌋` is `⌊100 √v⌋`, and comparing `40000 v`
with `(2 k₀ + 1)²` decides on which side of the half-way point
`k₀ + 1/2` the value `100 √v` falls, ties going to the even
candidate. -/
def sqrtK0 (v : ℚ) : ℕ :=
  Nat.sqrt (⌊10000 * v⌋).toNat

def sqrtK (v : ℚ) : ℕ :=
  if ((2 * sqrtK0 v + 1 : ℕ) : ℚ) ^ 2 < 40000 * v then sqrtK0 v + 1
  else if ((2 * sqrtK0 v + 1 : ℕ) : ℚ) ^ 2 = 40000 * v then
    (if sqrtK0 v % 2 = 0 then sqrtK0 v else sqrtK0 v + 1)
  else sqrtK0 v

/-- `round(statistics.stdev(ratings), 2)` (admin.py line 302), modelled
exactly: the square root of the sample variance rounded half-to-even at
2 decimal places. -/
def sqrtRound2 (v : ℚ) : ℚ :=
  (sqrtK v : ℚ) / 100

/-- admin.py line 301: `round(mean(ratings), 2) if ratings else None`. -/
def avgRatingOf (ratings : List Int) : Option ℚ :=
  if ratings.isEmpty then none else some (pyRound (listMean ratings) 2)

/-- admin.py line 302:
`round(stdev(ratings), 2) if len(ratings) > 1 else None`. -/
def stdDevOf (ratings : List Int) : Option ℚ :=
  if ratings.length > 1 then some (sqrtRound2 (sampleVariance ratings)) else none

/-- admin.py lines 297-302: the `(avg_rating, std_dev)` pair computed
for one question of `get_questions_by_company`, over all answers whose
`question_id` references the question. -/
def questionStats (db : Store) (q : Question) : Option ℚ × Option ℚ :=
  let answers := db.answers.filter (fun a => decide (a.question_id = q.id))
  let ratings := ratingsOf answers
  (avgRatingOf ratings, stdDevOf ratings)

/-! ## Visibility of sections and questions
(user.py, `get_question`, lines 100-175;
admin.py, `get_users_by_company`, lines 754-764) -/

/-- user.py lines 113-124: the sections visible to a user whose profile
carries `company_id = cid`.  A company user sees their company's
sections plus the global (null-company) ones; a user with no company
sees every section.  (The source also orders by label; ordering is
irrelevant to every claim, which are about the visible *set*.) -/
def visibleSections (db : Store) (cid : Option Int) : List Section :=
  match cid with
  | some c =>
    db.sections.filter
      (fun s => decide (s.company_id = some c ∨ s.company_id = none))
  | none => db.sections

/-- admin.py lines 756-762: the section filter of
`get_users_by_company` — the company's sections plus the global ones. -/
def visibleSectionsAdmin (db : Store) (company_id : Int) : List Section :=
  db.sections.filter
    (fun s => decide (s.company_id = some company_id ∨ s.company_id = none))

/-- admin.py lines 763-764: the questions whose `section_id` lies in the
given sections (`Question.section_id.in_(section_ids)` — a null
`section_id` never matches; an empty section list yields no query at
all, hence the guard). -/
def visibleQuestions (db : Store) (sections : List Section) : List Question :=
  let section_ids := sections.map (fun s => s.id)
  if section_ids.isEmpty then []
  else
    db.questions.filter
      (fun q =>
        match q.section_id with
        | none => false
        | some sid => decide (sid ∈ section_ids))

/-! ## Completion accounting
(admin.py, `get_users_by_company`, lines 766-811) -/

/-- admin.py line 789: `answer.answer and answer.answer.strip() != ""`. -/
def hasAnswerText (a : UserAnswer) : Bool :=
  match a.answer with
  | none => false
  | some s => decide (s.trim ≠ "")

/-- admin.py line 790: Python
`not answer.answer or answer.answer.strip() == ""` — the text is null,
empty or whitespace-only. -/
def blankAnswerText (a : UserAnswer) : Bool :=
  match a.answer with
  | none => true
  | some s => decide (s.trim = "")

/-- admin.py line 790:
`has_rating and answer.rating == 0 and (not answer.answer or answer.answer.strip() == "")`. -/
def isCantAnswer (a : UserAnswer) : Bool :=
  a.rating.isSome && decide (a.rating = some 0) && blankAnswerText a

/-- admin.py line 791:
`is_cant_answer or (has_rating and answer.rating != 0 and has_answer_text)`. -/
def isCompleteAnswer (a : UserAnswer) : Bool :=
  isCantAnswer a ||
    (a.rating.isSome && decide (a.rating ≠ some 0) && hasAnswerText a)

/-- The per-user completion record assembled by `get_users_by_company`
(admin.py lines 801-811); only the four accounting fields are kept. -/
structure UserCompletionInfo where
  total_questions : Nat
  answered_count : Nat
  completion_percentage : ℚ
  completely_answered : Bool
deriving Repr, DecidableEq

/-- The row filter `UserAnswer.question_id == qid` used by the
completion loop's `next(...)` lookup. -/
def qaPred (qid : Int) (a : UserAnswer) : Bool :=
  decide (a.question_id = qid)

/-- admin.py line 770: all answers of one user
(`db.query(UserAnswer).filter(UserAnswer.user_id == profile.id)`). -/
def userAnswersOf (db : Store) (uid : String) : List UserAnswer :=
  db.answers.filter (fun a => decide (a.user_id = uid))

/-- admin.py lines 772-774: the number of distinct answered question ids
(a Python `set`) that lie in the visible question id list. -/
def answeredCount (db : Store) (questions : List Question) (uid : String) : Nat :=
  (((userAnswersOf db uid).map (fun a => a.question_id)).dedup.filter
    (fun qid => decide (qid ∈ questions.map (fun q => q.id)))).length

/-- admin.py lines 780-794: the `for question in questions` loop.  The
loop starts from `completely_answered = True`, looks up the user's first
answer for each visible question, and sets the flag to `False` and
breaks as soon as an answer is missing or incomplete — which is exactly
`List.all` over the visible questions; with no visible question the
loop body never runs and the flag stays `True`. -/
def answersAllComplete (db : Store) (questions : List Question)
    (uid : String) : Bool :=
  if questions.length > 0 then
    questions.all (fun q =>
      match (userAnswersOf db uid).find? (qaPred q.id) with
      | none => false
      | some a => isCompleteAnswer a)
  else true

/-- admin.py lines 796-799:
`round((answered_count / total_questions) * 100, 1)` when any question
is visible, `0` otherwise. -/
def completionPercentage (db : Store) (questions : List Question)
    (uid : String) : ℚ :=
  if questions.length > 0 then
    pyRound (((answeredCount db questions uid : ℚ) / (questions.length : ℚ)) * 100) 1
  else 0

/-- admin.py lines 768-811: the completion accounting record for one
profile, given the visible question list; the reported flag is
`completely_answered and answered_count == total_questions`
(line 809). -/
def userCompletion (db : Store) (questions : List Question)
    (profile : Profile) : UserCompletionInfo :=
  { total_questions := questions.length
    answered_count := answeredCount db questions profile.id
    completion_percentage := completionPercentage db questions profile.id
    completely_answered :=
      answersAllComplete db questions profile.id &&
        decide (answeredCount db questions profile.id = questions.length) }

/-- `GET /get-users-by-company/{company_id}` (admin.py,
`get_users_by_company`): validates the company, then reports the
completion record of every profile of the company against the visible
question set. -/
def get_users_by_company (db : Store) (company_id : Int) :
    Except (Nat × String) (List (Profile × UserCompletionInfo)) :=
  match db.companies.find? (fun c => decide (c.id = company_id)) with
  | none => .error (404, "Company not found")
  | some _ =>
    let profiles := db.profiles.filter (fun p => decide (p.company_id = some company_id))
    let questions := visibleQuestions db (visibleSectionsAdmin db company_id)
    .ok (profiles.map (fun p => (p, userCompletion db questions p)))

/-! ## Collective report generation
(admin.py, `generate_collective_feedback_report`, lines 395-441) -/

/-- One block of the collective report (admin.py lines 421-426). -/
structure ReportEntry where
  question : String
  avg_rating : Option ℚ
  rating_label : String
  summary : String
deriving Repr, DecidableEq

/-- Outcome of `generate_collective_feedback_report`: an HTTP error, the
explicit no-data message, or the report file that is also e-mailed. -/
inductive ReportOutcome where
  | httpError (code : Nat) (detail : String)
  | noData (message : String)
  | fileReport (entries : List ReportEntry)
deriving Repr, DecidableEq

/-- admin.py line 410: `"Good" if avg > 0 else ("Neutral" if avg == 0
else "Poor")`, where a missing average (the string `"N/A"`) compares
unequal to `0` and therefore lands on `"Poor"`. -/
def ratingLabel (avg : Option ℚ) : String :=
  match avg with
  | some a => if a > 0 then "Good" else if a = 0 then "Neutral" else "Poor"
  | none => "Poor"

/-- The newline character as a string, used to assemble prompts. -/
def nl : String := "\n"

/-- admin.py line 412: `"\n".join(f"- {a.answer}" for a in answers if
a.answer)` — only truthy (non-null, non-empty) answer texts appear. -/
def answerBullets (answers : List UserAnswer) : String :=
  String.intercalate nl
    (answers.filterMap (fun a =>
      match a.answer with
      | none => none
      | some s => if s = "" then none else some ("- " ++ s)))

/-- Decimal display of the average for the prompt (`"N/A"` when no
ratings exist).  The exact decimal float rendering of Python is
abstracted to the canonical rational rendering; no claim depends on the
digits of the prompt. -/
def ratDisplay (avg : Option ℚ) : String :=
  match avg with
  | none => "N/A"
  | some a => toString a

/-- admin.py lines 413-419: the per-question prompt handed to the
text-generation collaborator. -/
def mkPrompt (idx : ℕ) (q : Question) (avg : Option ℚ) (label : String)
    (answers : List UserAnswer) : String :=
  "You are an evaluator analyzing user answers." ++ nl ++
  "Q" ++ toString idx ++ ": " ++ q.question ++ nl ++
  "Average Rating: " ++ ratDisplay avg ++ " (" ++ label ++ ")" ++ nl ++
  "User Answers:" ++ nl ++ answerBullets answers ++ nl ++ nl ++
  "Generate an AI summary that captures sentiment, strengths, and common misunderstandings based on these user answers." ++ nl

/-- The `for idx, q in enumerate(questions, 1)` loop of
`generate_collective_feedback_report` (admin.py lines 402-426): builds
the report entries, records every prompt sent to the text-generation
collaborator, and reports the first generation failure (which in the
source escapes as an `HTTPException` and aborts the whole report).
Questions without any answer are skipped but still consume an index. -/
def buildReport (gen : String → Except String String) (db : Store) :
    ℕ → List Question → List ReportEntry × List String × Option String
  | _, [] => ([], [], none)
  | idx, q :: qs =>
    let answers := db.answers.filter (fun a => decide (a.question_id = q.id))
    if answers.isEmpty then buildReport gen db (idx + 1) qs
    else
      let ratings := ratingsOf answers
      let avg := avgRatingOf ratings
      let label := ratingLabel avg
      let prompt := mkPrompt idx q avg label answers
      match gen prompt with
      | .error e => ([], [prompt], some e)
      | .ok summary =>
        let rest := buildReport gen db (idx + 1) qs
        ({ question := "Q" ++ toString idx ++ ": " ++ q.question,
           avg_rating := avg, rating_label := label,
           summary := summary } :: rest.1,
         prompt :: rest.2.1, rest.2.2)

/-- `GET /generate-collective-report` (admin.py,
`generate_collective_feedback_report`): returns the outcome together
with the list of prompts sent to the text-generation collaborator and
the number of e-mails sent, so absence of external calls is part of the
result.  An empty question table is a 404; a generation failure is a
500; an all-questions-unanswered store is the explicit no-data message;
otherwise the report is written and e-mailed once. -/
def generate_collective_feedback_report (gen : String → Except String String)
    (db : Store) : ReportOutcome × List String × ℕ :=
  if db.questions.isEmpty then (.httpError 404 ("No questions found"), [], 0)
  else
    let built := buildReport gen db 1 db.questions
    match built.2.2 with
    | some e =>
      (.httpError 500 ("Error generating feedback: " ++ e), built.2.1, 0)
    | none =>
      if built.1.isEmpty then
        (.noData ("No data available for collective report."), built.2.1, 0)
      else (.fileReport built.1, built.2.1, 1)

/-! ## Company deletion (admin.py, `delete_company`, lines 622-739;
models.py foreign keys with `ondelete='SET NULL'`) -/

/-- `DELETE /delete-company/{company_id}` (admin.py, `delete_company`),
success path: the handler first nulls `company_id` on every `users` and
`sections` row referencing the company (lines 633-688), then deletes the
company row (lines 693-696).  The `profiles.company_id`,
`users.company_id` and `sections.company_id` foreign keys are declared
`ondelete='SET NULL'` (models.py lines 50, 59, 75), so the row deletion
nulls the reference on dependent profiles at the database level (users
and sections were already nulled by the handler). -/
def delete_company (db : Store) (cid : Int) : Except (Nat × String) Store :=
  match db.companies.find? (fun c => decide (c.id = cid)) with
  | none => .error (404, "Company not found")
  | some _ =>
    let db1 := { db with
      users := db.users.map (fun (u : User) =>
        if u.company_id = some cid then { u with company_id := none } else u) }
    let db2 := { db1 with
      sections := db1.sections.map (fun (s : Section) =>
        if s.company_id = some cid then { s with company_id := none } else s) }
    .ok { db2 with
      companies := db2.companies.filter (fun c => decide (c.id ≠ cid)),
      profiles := db2.profiles.map (fun (p : Profile) =>
        if p.company_id = some cid then { p with company_id := none } else p) }

/-- The fields of a `user_answers` row that the upsert engine never
touches on pre-existing rows: identity, key pair, and the AI-feedback
pair. -/
def FrameKept (r r' : UserAnswer) : Prop :=
  r'.id = r.id ∧ r'.user_id = r.user_id ∧ r'.question_id = r.question_id ∧
    r'.feedback = r.feedback ∧ r'.feedback_generated = r.feedback_generated

/-- Whether a submitted tuple references an existing question in the
given question table: the skip test of user.py lines 193-195. -/
def validTuple (qs : List Question) (t : AnswerSubmit) : Bool :=
  (qs.find? (qPred t.question_id)).isSome

/-! ## Concrete fixtures used by witnesses and counterexamples -/

/-- An entirely empty store. -/
def dbEmpty : Store :=
  { questions := [], answers := [], users := [], profiles := [],
    companies := [], sections := [], nextAnswerId := 1 }

def company1 : Company := { id := 1, name := "Acme" }

def profile1 : Profile :=
  { id := "u-1", email := "u1@acme.example", name := "User One",
    company_id := some 1 }

def section1 : Section :=
  { id := 10, label := some "A", title := some "Alpha", company_id := some 1 }

/-- A global section: `company_id` null. -/
def sectionG : Section :=
  { id := 11, label := some "G", title := some "Global", company_id := none }

def q1 : Question :=
  { id := 1, section_id := some 10, question := "How was it?",
    rating_3_text := none, rating_neg3_text := none, show_rating_scale := true }

def q2 : Question :=
  { id := 2, section_id := some 10, question := "Anything else?",
    rating_3_text := none, rating_neg3_text := none, show_rating_scale := true }

def q3 : Question :=
  { id := 3, section_id := some 11, question := "Global question",
    rating_3_text := none, rating_neg3_text := none, show_rating_scale := true }

/-- A store with three questions across a company section and a global
section, one profile, and no answers yet. -/
def db3 : Store :=
  { questions := [q1, q2, q3], answers := [], users := [],
    profiles := [profile1], companies := [company1],
    sections := [section1, sectionG], nextAnswerId := 100 }

/-- A pre-existing answer row holding generated feedback, used to watch
the upsert overwrite it in place. -/
def ansOld : UserAnswer :=
  { id := 50, question_id := 1, user_id := "u-1", answer := some "old",
    rating := some 2, feedback := some "generated feedback",
    feedback_generated := true, submitted_at := some 3 }

/-- `db3` with `ansOld` already stored. -/
def dbW1 : Store := { db3 with answers := [ansOld] }

/-- A batch tuple targeting question 1. -/
def tSub1 : AnswerSubmit :=
  { question_id := 1, answer := "new text", rating := some 1,
    submitted_at := none }

/-- A tuple referencing a question id that does not exist. -/
def tSubBad : AnswerSubmit :=
  { question_id := 99, answer := "ghost", rating := none,
    submitted_at := none }

/-- A tuple targeting question 2. -/
def tSub3 : AnswerSubmit :=
  { question_id := 2, answer := "second", rating := some 3,
    submitted_at := some "2024-01-02T03:04:05Z" }

/-- Answers by three distinct users rating question 1 with 3, 1, -2. -/
def ansR1 : UserAnswer :=
  { id := 60, question_id := 1, user_id := "u-1", answer := some "good",
    rating := some 3, feedback := none, feedback_generated := false,
    submitted_at := some 4 }

def ansR2 : UserAnswer :=
  { id := 61, question_id := 1, user_id := "u-2", answer := some "fine",
    rating := some 1, feedback := none, feedback_generated := false,
    submitted_at := some 5 }

def ansR3 : UserAnswer :=
  { id := 62, question_id := 1, user_id := "u-3", answer := some "bad",
    rating := some (-2), feedback := none, feedback_generated := false,
    submitted_at := some 6 }

/-- A single rated answer for question 2. -/
def ansR4 : UserAnswer :=
  { id := 63, question_id := 2, user_id := "u-1", answer := some "only",
    rating := some 2, feedback := none, feedback_generated := false,
    submitted_at := some 7 }

/-- Store carrying the `[3, 1, -2]` ratings on question 1 and a single
rating on question 2. -/
def dbStats : Store := { db3 with answers := [ansR1, ansR2, ansR3, ansR4] }

/-- Completion fixture: questions 1 and 2 answered substantively, the
global question 3 marked "cannot answer" (rating 0, empty text). -/
def ansC1 : UserAnswer :=
  { id := 70, question_id := 1, user_id := "u-1", answer := some "ok",
    rating := some 2, feedback := none, feedback_generated := false,
    submitted_at := some 8 }

def ansC2 : UserAnswer :=
  { id := 71, question_id := 2, user_id := "u-1", answer := some "ok",
    rating := some 2, feedback := none, feedback_generated := false,
    submitted_at := some 9 }

def ansC3 : UserAnswer :=
  { id := 72, question_id := 3, user_id := "u-1", answer := some "",
    rating := some 0, feedback := none, feedback_generated := false,
    submitted_at := some 10 }

def dbComplete : Store := { db3 with answers := [ansC1, ansC2, ansC3] }

/-- Two-of-three completion fixture: only questions 1 and 2 answered. -/
def dbTwoOfThree : Store := { db3 with answers := [ansC1, ansC2] }

/-- A user row and a second section referencing company 1, for the
deletion frame claim. -/
def user1 : User :=
  { id := 7, email := "internal@acme.example", name := "Internal",
    hashed_password := "hash", company_id := some 1 }

def dbDel : Store :=
  { questions := [q1], answers := [ansOld], users := [user1],
    profiles := [profile1], companies := [company1],
    sections := [section1, sectionG], nextAnswerId := 100 }

/-! ## Claim-side classification predicates (spec §4.2 wording) -/

/-- Spec wording of "cannot answer": rating present and equal to 0 and
answer text empty/blank. -/
def CantAnswerP (a : UserAnswer) : Prop :=
  a.rating = some 0 ∧ (a.answer = none ∨ ∃ s, a.answer = some s ∧ s.trim = "")

/-- Spec wording of "substantive answer": rating present and non-zero
and answer text non-blank. -/
def SubstantiveP (a : UserAnswer) : Prop :=
  (∃ r : Int, a.rating = some r ∧ r ≠ 0) ∧
    (∃ s, a.answer = some s ∧ s.trim ≠ "")

/-! ## Helper lemmas -/

theorem updateFirst_of_find?_none {p : α → Bool} {f : α → α} :
    ∀ {l : List α}, l.find? p = none → updateFirst p f l = l
  | [], _ => rfl
  | x :: xs, h => by
    have hx : p x = false := by
      have := List.find?_eq_none.mp h x (by simp)
      simpa using this
    have hxs : xs.find? p = none :=
      List.find?_eq_none.mpr (fun y hy => List.find?_eq_none.mp h y (by simp [hy]))
    simp [updateFirst, hx, updateFirst_of_find?_none hxs]

theorem mem_updateFirst_cases {p : α → Bool} {f : α → α} :
    ∀ {l : List α} {y : α}, y ∈ updateFirst p f l →
      y ∈ l ∨ ∃ z, z ∈ l ∧ p z = true ∧ y = f z := by
  intro l
  induction l with
  | nil => intro y hy; simp [updateFirst] at hy
  | cons x xs ih =>
    intro y hy
    by_cases hx : p x
    · rw [updateFirst, if_pos hx] at hy
      rcases List.mem_cons.mp hy with h | h
      · exact Or.inr ⟨x, by simp, hx, h⟩
      · exact Or.inl (List.mem_cons.mpr (Or.inr h))
    · rw [updateFirst, if_neg hx] at hy
      rcases List.mem_cons.mp hy with h | h
      · exact Or.inl (by simp [h])
      · rcases ih h with h' | ⟨z, hz, hpz, rfl⟩
        · exact Or.inl (List.mem_cons.mpr (Or.inr h'))
        · exact Or.inr ⟨z, List.mem_cons.mpr (Or.inr hz), hpz, rfl⟩

theorem length_updateFirst (p : α → Bool) (f : α → α) :
    ∀ l : List α, (updateFirst p f l).length = l.length
  | [] => rfl
  | x :: xs => by
    by_cases hx : p x
    · simp [updateFirst, hx]
    · simp [updateFirst, hx, length_updateFirst p f xs]

theorem exists_mem_updateFirst {p : α → Bool} {f : α → α} :
    ∀ {l : List α} {r : α}, r ∈ l →
      r ∈ updateFirst p f l ∨ f r ∈ updateFirst p f l := by
  intro l
  induction l with
  | nil => intro r hr; cases hr
  | cons x xs ih =>
    intro r hr
    by_cases hx : p x
    · rcases List.mem_cons.mp hr with h | h
      · subst h; right; simp [updateFirst, hx]
      · left; simp [updateFirst, hx, h]
    · rcases List.mem_cons.mp hr with h | h
      · subst h; left; simp [updateFirst, hx]
      · rcases ih h with h' | h'
        · left; simp [updateFirst, hx, h']
        · right; simp [updateFirst, hx, h']

theorem updateFirst_split {p : α → Bool} {f : α → α} :
    ∀ {l : List α} {a : α}, l.find? p = some a →
      ∃ l₁ l₂, l = l₁ ++ a :: l₂ ∧ (∀ x ∈ l₁, p x = false) ∧
        updateFirst p f l = l₁ ++ f a :: l₂ := by
  intro l
  induction l with
  | nil => intro a h; simp [List.find?] at h
  | cons x xs ih =>
    intro a h
    by_cases hx : p x
    · have hxa : x = a := by
        have := h
        rw [List.find?_cons_of_pos _ hx] at this
        exact Option.some.inj this
      subst hxa
      exact ⟨[], xs, by simp, by simp, by simp [updateFirst, hx]⟩
    · have hxs : xs.find? p = some a := by
        have := h
        rwa [List.find?_cons_of_neg _ (by simpa using hx)] at this
      rcases ih hxs with ⟨l₁, l₂, hsplit, hnone, hupd⟩
      exact ⟨x :: l₁, l₂, by simp [hsplit],
        by
          intro y hy
          rcases List.mem_cons.mp hy with h' | h'
          · subst h'; simpa using hx
          · exact hnone y h',
        by simp [updateFirst, hx, hupd]⟩

theorem pairwise_updateFirst {R : α → α → Prop} {p : α → Bool} {f : α → α}
    (hf₁ : ∀ a b, R a b → R a (f b)) (hf₂ : ∀ a b, R a b → R (f a) b) :
    ∀ {l : List α}, l.Pairwise R → (updateFirst p f l).Pairwise R := by
  intro l
  induction l with
  | nil => intro _; simp [updateFirst]
  | cons x xs ih =>
    intro hl
    rcases List.pairwise_cons.mp hl with ⟨hx, hxs⟩
    by_cases hpx : p x
    · rw [updateFirst, if_pos hpx]
      exact List.pairwise_cons.mpr ⟨fun y hy => hf₂ x y (hx y hy), hxs⟩
    · rw [updateFirst, if_neg hpx]
      refine List.pairwise_cons.mpr ⟨?_, ih hxs⟩
      intro y hy
      rcases mem_updateFirst_cases hy with hy' | ⟨z, hz, _, rfl⟩
      · exact hx y hy'
      · exact hf₁ x z (hx z hz)

theorem find?_pair_unique {uid : String} {qid : Int} :
    ∀ {l : List UserAnswer}, PairUnique l → ∀ {r : UserAnswer}, r ∈ l →
      r.user_id = uid → r.question_id = qid →
      l.find? (pairPred uid qid) = some r := by
  intro l
  induction l with
  | nil => intro _ r hr; cases hr
  | cons x xs ih =>
    intro hu r hr hru hrq
    rcases List.pairwise_cons.mp hu with ⟨hx, hxs⟩
    by_cases hpx : x.user_id = uid ∧ x.question_id = qid
    · have hxr : r = x := by
        rcases List.mem_cons.mp hr with h | h
        · exact h
        · exact absurd ⟨hpx.1.trans hru.symm, hpx.2.trans hrq.symm⟩ (hx r h)
      subst hxr
      exact List.find?_cons_of_pos _ (by simpa [pairPred] using hpx)
    · have hrx : r ≠ x := by
        intro h; exact hpx (h ▸ ⟨hru, hrq⟩)
      have hr' : r ∈ xs := by
        rcases List.mem_cons.mp hr with h | h
        · exact absurd h hrx
        · exact h
      rw [List.find?_cons_of_neg _ (by simpa [pairPred] using hpx)]
      exact ih hxs hr' hru hrq

theorem find?_qid_unique {qid : Int} :
    ∀ {l : List UserAnswer},
      l.Pairwise (fun x y => x.question_id ≠ y.question_id) →
      ∀ {r : UserAnswer}, r ∈ l → r.question_id = qid →
      l.find? (qaPred qid) = some r := by
  intro l
  induction l with
  | nil => intro _ r hr; cases hr
  | cons x xs ih =>
    intro hu r hr hrq
    rcases List.pairwise_cons.mp hu with ⟨hx, hxs⟩
    by_cases hpx : x.question_id = qid
    · have hxr : r = x := by
        rcases List.mem_cons.mp hr with h | h
        · exact h
        · exact absurd (hpx.trans hrq.symm) (hx r h)
      subst hxr
      exact List.find?_cons_of_pos _ (by simpa [qaPred] using hpx)
    · have hr' : r ∈ xs := by
        rcases List.mem_cons.mp hr with h | h
        · exact absurd (h ▸ hrq) hpx
        · exact h
      rw [List.find?_cons_of_neg _ (by simpa [qaPred] using hpx)]
      exact ih hxs hr' hrq

theorem pairUnique_userAnswers {db : Store} (hu : PairUnique db.answers)
    (uid : String) :
    (userAnswersOf db uid).Pairwise (fun x y => x.question_id ≠ y.question_id) := by
  have hfil : (userAnswersOf db uid).Pairwise
      (fun a b => ¬(a.user_id = b.user_id ∧ a.question_id = b.question_id)) :=
    List.Pairwise.filter _ hu
  refine List.Pairwise.imp_of_mem ?_ hfil
  intro a b ha hb hab
  have ha' : a.user_id = uid := by
    have := (List.mem_filter.mp ha).2
    simpa using this
  have hb' : b.user_id = uid := by
    have := (List.mem_filter.mp hb).2
    simpa using this
  intro hq
  exact hab ⟨ha'.trans hb'.symm, hq⟩

theorem frameKept_refl (r : UserAnswer) : FrameKept r r :=
  ⟨rfl, rfl, rfl, rfl, rfl⟩

theorem frameKept_trans {a b c : UserAnswer} (h₁ : FrameKept a b)
    (h₂ : FrameKept b c) : FrameKept a c :=
  ⟨h₂.1.trans h₁.1, h₂.2.1.trans h₁.2.1, h₂.2.2.1.trans h₁.2.2.1,
    h₂.2.2.2.1.trans h₁.2.2.2.1, h₂.2.2.2.2.trans h₁.2.2.2.2⟩

theorem submitOne_eq_skip {po : String → Option Int} {now : Int}
    {uid : String} {st : Store × List (Int × Int)} {t : AnswerSubmit}
    (hq : st.1.questions.find? (qPred t.question_id) = none) :
    submitOne po now uid st t = st := by
  unfold submitOne
  rw [hq]

theorem submitOne_eq_update {po : String → Option Int} {now : Int}
    {uid : String} {st : Store × List (Int × Int)} {t : AnswerSubmit}
    {q0 : Question} {existing : UserAnswer}
    (hq : st.1.questions.find? (qPred t.question_id) = some q0)
    (ha : st.1.answers.find? (pairPred uid t.question_id) = some existing) :
    submitOne po now uid st t =
      ({ st.1 with
          answers :=
            updateFirst (pairPred uid t.question_id)
              (overwriteWith t.answer t.rating (resolveSubmittedAt po now t.submitted_at))
              st.1.answers },
       st.2 ++ [(t.question_id, existing.id)]) := by
  unfold submitOne
  rw [hq, ha]

theorem submitOne_eq_insert {po : String → Option Int} {now : Int}
    {uid : String} {st : Store × List (Int × Int)} {t : AnswerSubmit}
    {q0 : Question}
    (hq : st.1.questions.find? (qPred t.question_id) = some q0)
    (ha : st.1.answers.find? (pairPred uid t.question_id) = none) :
    submitOne po now uid st t =
      ({ st.1 with
          answers :=
            st.1.answers ++
              [freshRow st.1.nextAnswerId t.question_id uid t.answer t.rating
                (resolveSubmittedAt po now t.submitted_at)],
          nextAnswerId := st.1.nextAnswerId + 1 },
       st.2 ++ [(t.question_id, st.1.nextAnswerId)]) := by
  unfold submitOne
  rw [hq, ha]

theorem submitOne_questions (po : String → Option Int) (now : Int)
    (uid : String) (st : Store × List (Int × Int)) (t : AnswerSubmit) :
    (submitOne po now uid st t).1.questions = st.1.questions := by
  cases hq : st.1.questions.find? (qPred t.question_id) with
  | none => rw [submitOne_eq_skip hq]
  | some q0 =>
    cases ha : st.1.answers.find? (pairPred uid t.question_id) with
    | none => rw [submitOne_eq_insert hq ha]
    | some existing => rw [submitOne_eq_update hq ha]

theorem submitOne_pairUnique (po : String → Option Int) (now : Int)
    (uid : String) (st : Store × List (Int × Int)) (t : AnswerSubmit)
    (hu : PairUnique st.1.answers) :
    PairUnique (submitOne po now uid st t).1.answers := by
  cases hq : st.1.questions.find? (qPred t.question_id) with
  | none => rw [submitOne_eq_skip hq]; exact hu
  | some q0 =>
    cases ha : st.1.answers.find? (pairPred uid t.question_id) with
    | none =>
      rw [submitOne_eq_insert hq ha]
      refine List.pairwise_append.mpr ⟨hu, by simp, ?_⟩
      intro a hal b hbl
      have hb : b = freshRow st.1.nextAnswerId t.question_id uid t.answer
          t.rating (resolveSubmittedAt po now t.submitted_at) := by
        simpa using hbl
      subst hb
      have hnot := List.find?_eq_none.mp ha a hal
      intro hcontra
      have h1 : a.user_id = uid := by
        simpa [freshRow] using hcontra.1
      have h2 : a.question_id = t.question_id := by
        simpa [freshRow] using hcontra.2
      exact hnot (by simp [pairPred, h1, h2])
    | some existing =>
      rw [submitOne_eq_update hq ha]
      exact pairwise_updateFirst
        (fun a b hab => by
          intro hcontra
          exact hab ⟨hcontra.1, hcontra.2⟩)
        (fun a b hab => by
          intro hcontra
          exact hab ⟨hcontra.1, hcontra.2⟩)
        hu

theorem submitOne_frame (po : String → Option Int) (now : Int)
    (uid : String) (st : Store × List (Int × Int)) (t : AnswerSubmit) :
    ∀ r ∈ st.1.answers, ∃ r' ∈ (submitOne po now uid st t).1.answers,
      FrameKept r r' := by
  intro r hr
  cases hq : st.1.questions.find? (qPred t.question_id) with
  | none => rw [submitOne_eq_skip hq]; exact ⟨r, hr, frameKept_refl r⟩
  | some q0 =>
    cases ha : st.1.answers.find? (pairPred uid t.question_id) with
    | none =>
      rw [submitOne_eq_insert hq ha]
      exact ⟨r, by simp [hr], frameKept_refl r⟩
    | some existing =>
      rw [submitOne_eq_update hq ha]
      rcases exists_mem_updateFirst (p := pairPred uid t.question_id)
          (f := overwriteWith t.answer t.rating
            (resolveSubmittedAt po now t.submitted_at)) hr with h | h
      · exact ⟨r, h, frameKept_refl r⟩
      · exact ⟨_, h, ⟨rfl, rfl, rfl, rfl, rfl⟩⟩

theorem foldl_inv {σ τ : Type _} {P : σ → Prop} {f : σ → τ → σ}
    (hf : ∀ s t, P s → P (f s t)) :
    ∀ (l : List τ) (s : σ), P s → P (l.foldl f s) := by
  intro l
  induction l with
  | nil => intro s hs; exact hs
  | cons x xs ih => intro s hs; exact ih (f s x) (hf s x hs)

theorem foldl_saved (po : String → Option Int) (now : Int) (uid : String) :
    ∀ (batch : List AnswerSubmit) (db : Store) (saved0 : List (Int × Int)),
      ((batch.foldl (submitOne po now uid) (db, saved0)).2).map Prod.fst
        = saved0.map Prod.fst ++
          ((batch.filter (validTuple db.questions)).map (fun t => t.question_id)) := by
  intro batch
  induction batch with
  | nil => intro db saved0; simp
  | cons t ts ih =>
    intro db saved0
    simp only [List.foldl_cons]
    cases hq : db.questions.find? (qPred t.question_id) with
    | none =>
      rw [@submitOne_eq_skip po now uid (db, saved0) t hq, ih db saved0]
      simp [List.filter_cons, validTuple, hq]
    | some q0 =>
      cases ha : db.answers.find? (pairPred uid t.question_id) with
      | some existing =>
        rw [@submitOne_eq_update po now uid (db, saved0) t q0 existing hq ha, ih _ _]
        simp [List.filter_cons, validTuple, hq]
      | none =>
        rw [@submitOne_eq_insert po now uid (db, saved0) t q0 hq ha, ih _ _]
        simp [List.filter_cons, validTuple, hq]

theorem foldl_growth (po : String → Option Int) (now : Int) (uid : String) :
    ∀ (batch : List AnswerSubmit) (db : Store) (saved0 : List (Int × Int)),
      (batch.map (fun t => t.question_id)).Nodup →
      (∀ t ∈ batch, db.answers.find? (pairPred uid t.question_id) = none) →
      ((batch.foldl (submitOne po now uid) (db, saved0)).1).answers.length
        = db.answers.length + (batch.filter (validTuple db.questions)).length := by
  intro batch
  induction batch with
  | nil => intro db saved0 _ _; simp
  | cons t ts ih =>
    intro db saved0 hnodup hfresh
    simp only [List.foldl_cons]
    have hcons : t.question_id ∉ ts.map (fun t' => t'.question_id) ∧
        (ts.map (fun t' => t'.question_id)).Nodup := by
      have h := hnodup
      rw [List.map_cons, List.nodup_cons] at h
      exact h
    have hnodup' : (ts.map (fun t' => t'.question_id)).Nodup := hcons.2
    have hne : ∀ t' ∈ ts, t'.question_id ≠ t.question_id := by
      intro t' ht' h
      exact hcons.1 (h ▸ List.mem_map_of_mem _ ht')
    cases hq : db.questions.find? (qPred t.question_id) with
    | none =>
      rw [@submitOne_eq_skip po now uid (db, saved0) t hq]
      rw [ih db saved0 hnodup' (fun t' ht' => hfresh t' (List.mem_cons.mpr (Or.inr ht')))]
      simp [List.filter_cons, validTuple, hq]
    | some q0 =>
      have ha := hfresh t (by simp)
      rw [@submitOne_eq_insert po now uid (db, saved0) t q0 hq ha]
      have hfresh' : ∀ t' ∈ ts,
          (db.answers ++
            [freshRow db.nextAnswerId t.question_id uid t.answer t.rating
              (resolveSubmittedAt po now t.submitted_at)]).find?
            (pairPred uid t'.question_id) = none := by
        intro t' ht'
        refine List.find?_eq_none.mpr ?_
        intro x hx
        rcases List.mem_append.mp hx with hx | hx
        · exact List.find?_eq_none.mp (hfresh t' (List.mem_cons.mpr (Or.inr ht'))) x hx
        · have hx' : x = freshRow db.nextAnswerId t.question_id uid t.answer
              t.rating (resolveSubmittedAt po now t.submitted_at) := by simpa using hx
          subst hx'
          simp only [pairPred, freshRow, decide_eq_true_eq]
          intro hcontra
          exact hne t' ht' hcontra.2.symm
      have := ih ({ db with
          answers := db.answers ++
            [freshRow db.nextAnswerId t.question_id uid t.answer t.rating
              (resolveSubmittedAt po now t.submitted_at)],
          nextAnswerId := db.nextAnswerId + 1 }) (saved0 ++ [(t.question_id, db.nextAnswerId)])
          hnodup' hfresh'
      rw [this]
      simp [List.filter_cons, validTuple, hq]
      omega

theorem upsert_update_spec {uid : String} {qid : Int} {ansText : String}
    {rating : Option Int} {ts : Int} {l : List UserAnswer} {r : UserAnswer}
    (hu : PairUnique l) (hr : r ∈ l) (hru : r.user_id = uid)
    (hrq : r.question_id = qid) :
    (updateFirst (pairPred uid qid) (overwriteWith ansText rating ts) l).length
        = l.length ∧
      ((updateFirst (pairPred uid qid) (overwriteWith ansText rating ts) l).filter
        (pairPred uid qid)).length = 1 ∧
      (∀ r' ∈ updateFirst (pairPred uid qid) (overwriteWith ansText rating ts) l,
        r'.user_id = uid → r'.question_id = qid →
        r' = overwriteWith ansText rating ts r) := by
  have ha := find?_pair_unique hu hr hru hrq
  obtain ⟨l₁, l₂, hsplit, hnone, hupd⟩ :=
    updateFirst_split (f := overwriteWith ansText rating ts) ha
  have hpair := hsplit ▸ hu
  have hsegs := List.pairwise_append.mp hpair
  have hrl₂ : ∀ y ∈ l₂, ¬(r.user_id = y.user_id ∧ r.question_id = y.question_id) :=
    (List.pairwise_cons.mp hsegs.2.1).1
  have hl₂false : ∀ y ∈ l₂, pairPred uid qid y = false := by
    intro y hy
    have := hrl₂ y hy
    simp only [pairPred, decide_eq_false_iff_not]
    intro hc
    exact this ⟨hru.trans hc.1.symm, hrq.trans hc.2.symm⟩
  have hfr : pairPred uid qid (overwriteWith ansText rating ts r) = true := by
    simp [pairPred, overwriteWith, hru, hrq]
  refine ⟨?_, ?_, ?_⟩
  · rw [hupd, hsplit]; simp
  · rw [hupd]
    rw [List.filter_append]
    have h₁ : l₁.filter (pairPred uid qid) = [] :=
      List.filter_eq_nil_iff.mpr (fun x hx => by simp [hnone x hx])
    have h₂ : l₂.filter (pairPred uid qid) = [] :=
      List.filter_eq_nil_iff.mpr (fun x hx => by simp [hl₂false x hx])
    rw [h₁]
    simp [List.filter_cons, hfr, h₂]
  · intro r' hr' h1 h2
    rw [hupd] at hr'
    rcases List.mem_append.mp hr' with hmem | hmem
    · have hneq := hnone r' hmem
      simp [pairPred, h1, h2] at hneq
    · rcases List.mem_cons.mp hmem with hmem | hmem
      · exact hmem
      · have hneq := hl₂false r' hmem
        simp [pairPred, h1, h2] at hneq

theorem isCompleteAnswer_iff (a : UserAnswer) :
    isCompleteAnswer a = true ↔ CantAnswerP a ∨ SubstantiveP a := by
  cases hrat : a.rating with
  | none =>
    simp [isCompleteAnswer, isCantAnswer, CantAnswerP, SubstantiveP, hrat]
  | some rv =>
    cases hans : a.answer with
    | none =>
      simp [isCompleteAnswer, isCantAnswer, CantAnswerP, SubstantiveP,
        blankAnswerText, hasAnswerText, hrat, hans]
    | some s =>
      by_cases hb : s.trim = ""
      · by_cases hz : rv = 0
        · simp [isCompleteAnswer, isCantAnswer, CantAnswerP, SubstantiveP,
            blankAnswerText, hasAnswerText, hrat, hans, hb, hz]
        · simp [isCompleteAnswer, isCantAnswer, CantAnswerP, SubstantiveP,
            blankAnswerText, hasAnswerText, hrat, hans, hb, hz]
      · by_cases hz : rv = 0
        · simp [isCompleteAnswer, isCantAnswer, CantAnswerP, SubstantiveP,
            blankAnswerText, hasAnswerText, hrat, hans, hb, hz]
        · simp [isCompleteAnswer, isCantAnswer, CantAnswerP, SubstantiveP,
            blankAnswerText, hasAnswerText, hrat, hans, hb, hz]

theorem length_filter_mem_comm {l₁ l₂ : List Int} (h₁ : l₁.Nodup)
    (h₂ : l₂.Nodup) :
    (l₁.filter (fun x => decide (x ∈ l₂))).length
      = (l₂.filter (fun x => decide (x ∈ l₁))).length := by
  have e1 : (l₁.filter (fun x => decide (x ∈ l₂))).toFinset
      = l₁.toFinset ∩ l₂.toFinset := by
    ext x
    simp [List.mem_filter]
  have e2 : (l₂.filter (fun x => decide (x ∈ l₁))).toFinset
      = l₁.toFinset ∩ l₂.toFinset := by
    ext x
    simp [List.mem_filter, and_comm]
  calc (l₁.filter (fun x => decide (x ∈ l₂))).length
      = (l₁.filter (fun x => decide (x ∈ l₂))).toFinset.card :=
        (List.toFinset_card_of_nodup (h₁.filter _)).symm
    _ = (l₁.toFinset ∩ l₂.toFinset).card := by rw [e1]
    _ = (l₂.filter (fun x => decide (x ∈ l₁))).toFinset.card := by rw [e2]
    _ = (l₂.filter (fun x => decide (x ∈ l₁))).length :=
        List.toFinset_card_of_nodup (h₂.filter _)

theorem answeredCount_eq (db : Store) (questions : List Question)
    (uid : String) (hnodup : (questions.map (fun q => q.id)).Nodup) :
    answeredCount db questions uid
      = (questions.filter (fun q =>
          decide (∃ a, a ∈ db.answers ∧ a.user_id = uid ∧ a.question_id = q.id))).length := by
  unfold answeredCount
  have hmemL : ∀ qid : Int,
      (qid ∈ (userAnswersOf db uid).map (fun a => a.question_id)) ↔
        ∃ a, a ∈ db.answers ∧ a.user_id = uid ∧ a.question_id = qid := by
    intro qid
    constructor
    · intro h
      rcases List.mem_map.mp h with ⟨a, ha, rfl⟩
      rcases List.mem_filter.mp ha with ⟨hadb, hau⟩
      exact ⟨a, hadb, by simpa using hau, rfl⟩
    · rintro ⟨a, hadb, hau, rfl⟩
      exact List.mem_map_of_mem _ (List.mem_filter.mpr ⟨hadb, by simpa using hau⟩)
  have hrhs : (questions.filter (fun q =>
        decide (∃ a, a ∈ db.answers ∧ a.user_id = uid ∧ a.question_id = q.id))).length
      = ((questions.map (fun q => q.id)).filter (fun x =>
          decide (x ∈ (userAnswersOf db uid).map (fun a => a.question_id)))).length := by
    rw [← List.countP_eq_length_filter, ← List.countP_eq_length_filter,
      List.countP_map]
    refine List.countP_congr ?_
    intro q _
    simp only [Function.comp, decide_eq_true_eq]
    exact (hmemL q.id).symm
  rw [hrhs]
  have hc := @length_filter_mem_comm
    (((userAnswersOf db uid).map (fun a => a.question_id)).dedup)
    (questions.map (fun q => q.id))
    (List.nodup_dedup _) hnodup
  rw [hc]
  refine congrArg List.length (List.filter_congr ?_)
  intro x _
  rw [decide_eq_decide]
  exact List.mem_dedup

theorem sqrtK_bracket (v : ℚ) (hv : 0 ≤ v) :
    10000 * v ≤ ((sqrtK v : ℚ) + 1 / 2) ^ 2 ∧
      (1 ≤ sqrtK v → ((sqrtK v : ℚ) - 1 / 2) ^ 2 ≤ 10000 * v) := by
  have h40 : (0 : ℚ) ≤ 10000 * v := by positivity
  have hflnn : (0 : ℤ) ≤ ⌊10000 * v⌋ := Int.floor_nonneg.mpr h40
  have hmz : (((⌊10000 * v⌋).toNat : ℕ) : ℚ) = ((⌊10000 * v⌋ : ℤ) : ℚ) := by
    exact_mod_cast Int.toNat_of_nonneg hflnn
  have hx0 : (0 : ℚ) ≤ (sqrtK0 v : ℚ) := Nat.cast_nonneg _
  have hlow : ((sqrtK0 v : ℚ)) ^ 2 ≤ 10000 * v := by
    have h1 : (sqrtK0 v) ^ 2 ≤ (⌊10000 * v⌋).toNat := Nat.sqrt_le' _
    calc ((sqrtK0 v : ℚ)) ^ 2 = ((sqrtK0 v ^ 2 : ℕ) : ℚ) := by push_cast; ring
      _ ≤ (((⌊10000 * v⌋).toNat : ℕ) : ℚ) := by exact_mod_cast h1
      _ = ((⌊10000 * v⌋ : ℤ) : ℚ) := hmz
      _ ≤ 10000 * v := Int.floor_le _
  have hhigh : 10000 * v < ((sqrtK0 v : ℚ) + 1) ^ 2 := by
    have h1 : (⌊10000 * v⌋).toNat + 1 ≤ (sqrtK0 v + 1) ^ 2 :=
      Nat.succ_le_of_lt (by
        simpa [Nat.succ_eq_add_one] using Nat.lt_succ_sqrt' (⌊10000 * v⌋).toNat)
    calc 10000 * v < ((⌊10000 * v⌋ : ℤ) : ℚ) + 1 := Int.lt_floor_add_one _
      _ = (((⌊10000 * v⌋).toNat : ℕ) : ℚ) + 1 := by rw [hmz]
      _ ≤ (((sqrtK0 v + 1) ^ 2 : ℕ) : ℚ) := by exact_mod_cast h1
      _ = ((sqrtK0 v : ℚ) + 1) ^ 2 := by push_cast; ring
  unfold sqrtK
  split_ifs with h1 h2 h3
  · push_cast at h1 ⊢
    constructor
    · nlinarith [hhigh, hx0]
    · intro _
      nlinarith [h1]
  · push_cast at h2 ⊢
    constructor
    · nlinarith [h2]
    · intro hk1
      have hx1 : (1 : ℚ) ≤ (sqrtK0 v : ℚ) := by exact_mod_cast hk1
      nlinarith [hlow, hx1]
  · push_cast at h2 ⊢
    constructor
    · nlinarith [h2, hx0]
    · intro _
      nlinarith [h2]
  · push_cast at h1 h2 ⊢
    have h1' := not_lt.mp h1
    constructor
    · nlinarith [h1']
    · intro hk1
      have hx1 : (1 : ℚ) ≤ (sqrtK0 v : ℚ) := by exact_mod_cast hk1
      nlinarith [hlow, hx1]

theorem validTuple_iff (qs : List Question) (t : AnswerSubmit) :
    validTuple qs t = true ↔ ∃ q ∈ qs, q.id = t.question_id := by
  unfold validTuple
  rw [List.find?_isSome]
  constructor
  · rintro ⟨q, hq, hp⟩
    exact ⟨q, hq, by simpa [qPred] using hp⟩
  · rintro ⟨q, hq, hp⟩
    exact ⟨q, hq, by simp [qPred, hp]⟩

theorem pair_eq_of_pairUnique {l : List UserAnswer} (hu : PairUnique l)
    {a b : UserAnswer} (ha : a ∈ l) (hb : b ∈ l)
    (huid : a.user_id = b.user_id) (hqid : a.question_id = b.question_id) :
    a = b := by
  by_contra hne
  have hsym : Symmetric
      (fun x y : UserAnswer =>
        ¬(x.user_id = y.user_id ∧ x.question_id = y.question_id)) := by
    intro x y hxy hc
    exact hxy ⟨hc.1.symm, hc.2.symm⟩
  exact (hu.forall hsym ha hb hne) ⟨huid, hqid⟩

theorem submit_update_case (po : String → Option Int) (now : Int)
    (p : Profile) (t : AnswerSubmit) (db : Store) {q0 : Question}
    {r : UserAnswer}
    (hq : db.questions.find? (qPred t.question_id) = some q0)
    (hu : PairUnique db.answers) (hr : r ∈ db.answers)
    (hru : r.user_id = p.id) (hrq : r.question_id = t.question_id) :
    ∃ db', submit_answers po now (.profileUser p) [t] db
        = .ok (db', [(t.question_id, r.id)])
      ∧ db'.questions = db.questions
      ∧ PairUnique db'.answers
      ∧ db'.answers.length = db.answers.length
      ∧ (db'.answers.filter (pairPred p.id t.question_id)).length = 1
      ∧ (∀ r' ∈ db'.answers, r'.user_id = p.id → r'.question_id = t.question_id →
          r' = overwriteWith t.answer t.rating
            (resolveSubmittedAt po now t.submitted_at) r) := by
  have ha := find?_pair_unique hu hr hru hrq
  have hspec := @upsert_update_spec p.id t.question_id t.answer t.rating
    (resolveSubmittedAt po now t.submitted_at) db.answers r hu hr hru hrq
  let upd := updateFirst (pairPred p.id t.question_id)
    (overwriteWith t.answer t.rating (resolveSubmittedAt po now t.submitted_at))
    db.answers
  refine ⟨{ db with answers := upd }, ?_, rfl, ?_, hspec.1, hspec.2.1, hspec.2.2⟩
  · unfold submit_answers
    simp only [List.foldl_cons, List.foldl_nil]
    rw [@submitOne_eq_update po now p.id (db, []) t q0 r hq ha]
    rfl
  · exact pairwise_updateFirst
      (fun a b hab hc => hab ⟨hc.1, hc.2⟩)
      (fun a b hab hc => hab ⟨hc.1, hc.2⟩) hu

theorem submit_insert_case (po : String → Option Int) (now : Int)
    (p : Profile) (t : AnswerSubmit) (db : Store) {q0 : Question}
    (hq : db.questions.find? (qPred t.question_id) = some q0)
    (ha : db.answers.find? (pairPred p.id t.question_id) = none) :
    submit_answers po now (.profileUser p) [t] db
      = .ok ({ db with
          answers := db.answers ++
            [freshRow db.nextAnswerId t.question_id p.id t.answer t.rating
              (resolveSubmittedAt po now t.submitted_at)],
          nextAnswerId := db.nextAnswerId + 1 },
        [(t.question_id, db.nextAnswerId)]) := by
  unfold submit_answers
  simp only [List.foldl_cons, List.foldl_nil]
  rw [@submitOne_eq_insert po now p.id (db, []) t q0 hq ha]
  rfl

theorem buildReport_no_answers (gen : String → Except String String)
    (db : Store) :
    ∀ (idx : ℕ) (qs : List Question),
      (∀ q ∈ qs, db.answers.filter (fun a => decide (a.question_id = q.id)) = []) →
      buildReport gen db idx qs = ([], [], none) := by
  intro idx qs
  induction qs generalizing idx with
  | nil => intro _; rfl
  | cons q qs ih =>
    intro h
    have hq : db.answers.filter (fun a => decide (a.question_id = q.id)) = [] :=
      h q (by simp)
    simp only [buildReport]
    rw [hq]
    simp only [List.isEmpty_nil, if_true]
    exact ih (idx + 1) (fun q' hq' => h q' (by simp [hq']))

theorem visibleQuestions_eq (db : Store) (sections : List Section) :
    visibleQuestions db sections
      = db.questions.filter (fun q =>
          match q.section_id with
          | none => false
          | some sid => decide (sid ∈ sections.map (fun s => s.id))) := by
  unfold visibleQuestions
  by_cases h : (sections.map (fun s => s.id)).isEmpty
  · rw [if_pos h]
    refine (List.filter_eq_nil_iff.mpr ?_).symm
    intro q _
    cases hq : q.section_id with
    | none => simp
    | some sid =>
      simp only
      have : sections.map (fun s => s.id) = [] := List.isEmpty_iff.mp h
      simp [this]
  · rw [if_neg h]

theorem completely_answered_iff_aux (db : Store) (questions : List Question)
    (p : Profile) (hlen : 0 < questions.length) (hu : PairUnique db.answers) :
    (userCompletion db questions p).completely_answered = true ↔
      ((∀ q ∈ questions, ∃ a ∈ db.answers, a.user_id = p.id
          ∧ a.question_id = q.id ∧ (CantAnswerP a ∨ SubstantiveP a))
        ∧ answeredCount db questions p.id = questions.length) := by
  have hall : answersAllComplete db questions p.id = true ↔
      ∀ q ∈ questions, ∃ a ∈ db.answers, a.user_id = p.id
        ∧ a.question_id = q.id ∧ (CantAnswerP a ∨ SubstantiveP a) := by
    unfold answersAllComplete
    rw [if_pos hlen, List.all_eq_true]
    constructor
    · intro h q hq
      have hthis := h q hq
      cases hfind : (userAnswersOf db p.id).find? (qaPred q.id) with
      | none => rw [hfind] at hthis; exact absurd hthis (by simp)
      | some a =>
        rw [hfind] at hthis
        have hcomp : isCompleteAnswer a = true := hthis
        have ha := List.mem_of_find?_eq_some hfind
        have hamem : a ∈ db.answers := (List.mem_filter.mp ha).1
        have hauid : a.user_id = p.id := by
          have := (List.mem_filter.mp ha).2
          simpa using this
        have haqid : a.question_id = q.id := by
          have := List.find?_some hfind
          simpa [qaPred] using this
        exact ⟨a, hamem, hauid, haqid, (isCompleteAnswer_iff a).mp hcomp⟩
    · intro h q hq
      obtain ⟨a, hamem, hauid, haqid, hclass⟩ := h q hq
      have hfind : (userAnswersOf db p.id).find? (qaPred q.id) = some a :=
        find?_qid_unique (pairUnique_userAnswers hu p.id)
          (List.mem_filter.mpr ⟨hamem, by simp [hauid]⟩) haqid
      rw [hfind]
      exact (isCompleteAnswer_iff a).mpr hclass
  show (answersAllComplete db questions p.id &&
      decide (answeredCount db questions p.id = questions.length)) = true ↔ _
  rw [Bool.and_eq_true, decide_eq_true_eq, hall]

/-! ## Claim theorems -/

/-- C1: batch submission by a Profile identity is an upsert keyed on
(user, question): it preserves the at-most-one-answer-per-pair
invariant; when an answer for the pair exists it overwrites `answer`,
`rating` and `submitted_at` in place with the row id (and feedback
fields) preserved, leaving exactly one row for the pair; when none
exists it appends a fresh row with `feedback = none` and
`feedback_generated = false`; and submitting the same pair twice with
different content leaves exactly one stored answer holding the latest
content. -/
theorem c1_answer_upsert :
    (∀ (po : String → Option Int) (now : Int) (p : Profile)
        (batch : List AnswerSubmit) (db db' : Store) (saved : List (Int × Int)),
      submit_answers po now (.profileUser p) batch db = .ok (db', saved) →
      PairUnique db.answers → PairUnique db'.answers)
    ∧
    (∀ (po : String → Option Int) (now : Int) (p : Profile) (t : AnswerSubmit)
        (db : Store) (q0 : Question) (r : UserAnswer),
      db.questions.find? (qPred t.question_id) = some q0 →
      PairUnique db.answers →
      r ∈ db.answers → r.user_id = p.id → r.question_id = t.question_id →
      ∃ db', submit_answers po now (.profileUser p) [t] db
          = .ok (db', [(t.question_id, r.id)])
        ∧ db'.answers.length = db.answers.length
        ∧ (db'.answers.filter (pairPred p.id t.question_id)).length = 1
        ∧ (∀ r' ∈ db'.answers, r'.user_id = p.id → r'.question_id = t.question_id →
            r'.id = r.id ∧ r'.answer = some t.answer ∧ r'.rating = t.rating
              ∧ r'.submitted_at = some (resolveSubmittedAt po now t.submitted_at)
              ∧ r'.feedback = r.feedback
              ∧ r'.feedback_generated = r.feedback_generated))
    ∧
    (∀ (po : String → Option Int) (now : Int) (p : Profile) (t : AnswerSubmit)
        (db : Store) (q0 : Question),
      db.questions.find? (qPred t.question_id) = some q0 →
      db.answers.find? (pairPred p.id t.question_id) = none →
      ∃ db' r', submit_answers po now (.profileUser p) [t] db
          = .ok (db', [(t.question_id, db.nextAnswerId)])
        ∧ db'.answers = db.answers ++ [r']
        ∧ r'.user_id = p.id ∧ r'.question_id = t.question_id
        ∧ r'.answer = some t.answer ∧ r'.rating = t.rating
        ∧ r'.submitted_at = some (resolveSubmittedAt po now t.submitted_at)
        ∧ r'.feedback = none ∧ r'.feedback_generated = false)
    ∧
    (∀ (po : String → Option Int) (now₁ now₂ : Int) (p : Profile)
        (t1 t2 : AnswerSubmit) (db : Store) (q0 : Question),
      t1.question_id = t2.question_id →
      db.questions.find? (qPred t1.question_id) = some q0 →
      PairUnique db.answers →
      db.answers.find? (pairPred p.id t1.question_id) = none →
      ∃ db1 s1 db2 s2,
        submit_answers po now₁ (.profileUser p) [t1] db = .ok (db1, s1)
        ∧ submit_answers po now₂ (.profileUser p) [t2] db1 = .ok (db2, s2)
        ∧ (db2.answers.filter (pairPred p.id t2.question_id)).length = 1
        ∧ (∀ r' ∈ db2.answers, r'.user_id = p.id →
            r'.question_id = t2.question_id →
            r'.answer = some t2.answer ∧ r'.rating = t2.rating)) := by
  refine ⟨?_, ?_, ?_, ?_⟩
  · intro po now p batch db db' saved h hu
    unfold submit_answers at h
    rw [Except.ok.injEq] at h
    have hdb : (batch.foldl (submitOne po now p.id) (db, [])).1 = db' := by
      rw [h]
    rw [← hdb]
    exact foldl_inv (P := fun st => PairUnique st.1.answers)
      (fun s t hP => submitOne_pairUnique po now p.id s t hP) batch (db, []) hu
  · intro po now p t db q0 r hq hu hr hru hrq
    obtain ⟨db', h1, _, _, h4, h5, h6⟩ :=
      submit_update_case po now p t db hq hu hr hru hrq
    refine ⟨db', h1, h4, h5, ?_⟩
    intro r' hr' e1 e2
    rw [h6 r' hr' e1 e2]
    simp [overwriteWith]
  · intro po now p t db q0 hq ha
    exact ⟨_, freshRow db.nextAnswerId t.question_id p.id t.answer t.rating
        (resolveSubmittedAt po now t.submitted_at),
      submit_insert_case po now p t db hq ha, rfl, rfl, rfl, rfl, rfl, rfl,
      rfl, rfl⟩
  · intro po now₁ now₂ p t1 t2 db q0 heq hq hu ha
    have step1 := submit_insert_case po now₁ p t1 db hq ha
    have hu1 : PairUnique ({ db with
        answers := db.answers ++
          [freshRow db.nextAnswerId t1.question_id p.id t1.answer t1.rating
            (resolveSubmittedAt po now₁ t1.submitted_at)],
        nextAnswerId := db.nextAnswerId + 1 } : Store).answers := by
      have h := submitOne_pairUnique po now₁ p.id (db, []) t1 hu
      rw [@submitOne_eq_insert po now₁ p.id (db, []) t1 q0 hq ha] at h
      exact h
    have hq2 : ({ db with
        answers := db.answers ++
          [freshRow db.nextAnswerId t1.question_id p.id t1.answer t1.rating
            (resolveSubmittedAt po now₁ t1.submitted_at)],
        nextAnswerId := db.nextAnswerId + 1 } : Store).questions.find?
        (qPred t2.question_id) = some q0 := by
      rw [← heq]
      exact hq
    have hmem : freshRow db.nextAnswerId t1.question_id p.id t1.answer
        t1.rating (resolveSubmittedAt po now₁ t1.submitted_at) ∈
        ({ db with
          answers := db.answers ++
            [freshRow db.nextAnswerId t1.question_id p.id t1.answer t1.rating
              (resolveSubmittedAt po now₁ t1.submitted_at)],
          nextAnswerId := db.nextAnswerId + 1 } : Store).answers := by
      simp
    obtain ⟨db2, h1, _, _, _, h5, h6⟩ :=
      submit_update_case po now₂ p t2 _ hq2 hu1 hmem rfl heq
    refine ⟨_, _, db2, _, step1, h1, h5, ?_⟩
    intro r' hr' e1 e2
    rw [h6 r' hr' e1 e2]
    simp [overwriteWith]

/-- C10: both submission endpoints leave the `feedback` and
`feedback_generated` fields (as well as id, user and question
references) of every pre-existing answer row unchanged — an update only
overwrites `answer`, `rating` and `submitted_at`. -/
theorem c10_feedback_frame :
    (∀ (po : String → Option Int) (now : Int) (p : Profile)
        (batch : List AnswerSubmit) (db db' : Store) (saved : List (Int × Int)),
      submit_answers po now (.profileUser p) batch db = .ok (db', saved) →
      ∀ r ∈ db.answers, ∃ r' ∈ db'.answers,
        r'.id = r.id ∧ r'.user_id = r.user_id ∧ r'.question_id = r.question_id
          ∧ r'.feedback = r.feedback
          ∧ r'.feedback_generated = r.feedback_generated)
    ∧
    (∀ (now : Int) (qid : Int) (ans : AnswerCreate) (cu : CurrentUser)
        (db db' : Store) (aid : Int),
      submit_answer now qid ans cu db = .ok (db', aid) →
      ∀ r ∈ db.answers, ∃ r' ∈ db'.answers,
        r'.id = r.id ∧ r'.user_id = r.user_id ∧ r'.question_id = r.question_id
          ∧ r'.feedback = r.feedback
          ∧ r'.feedback_generated = r.feedback_generated) := by
  constructor
  · intro po now p batch db db' saved h r hr
    unfold submit_answers at h
    rw [Except.ok.injEq] at h
    have hdb : (batch.foldl (submitOne po now p.id) (db, [])).1 = db' := by
      rw [h]
    rw [← hdb]
    exact foldl_inv
      (P := fun st => ∀ r ∈ db.answers, ∃ r' ∈ st.1.answers, FrameKept r r')
      (fun s t hP r hr => by
        obtain ⟨r₁, hr₁, hk₁⟩ := hP r hr
        obtain ⟨r₂, hr₂, hk₂⟩ := submitOne_frame po now p.id s t r₁ hr₁
        exact ⟨r₂, hr₂, frameKept_trans hk₁ hk₂⟩)
      batch (db, []) (fun r hr => ⟨r, hr, frameKept_refl r⟩) r hr
  · intro now qid ans cu db db' aid h r hr
    unfold submit_answer at h
    cases hq : db.questions.find? (qPred qid) with
    | none => rw [hq] at h; cases h
    | some q0 =>
      rw [hq] at h
      cases cu with
      | internalUser u => cases h
      | profileUser p =>
        dsimp only at h
        cases ha : db.answers.find? (pairPred p.id qid) with
        | some existing =>
          rw [ha] at h
          rw [Except.ok.injEq] at h
          have hdb : ({ db with
              answers :=
                updateFirst (pairPred p.id qid)
                  (overwriteWith ans.answer ans.rating now) db.answers } : Store)
              = db' := congrArg Prod.fst h
          rw [← hdb]
          rcases exists_mem_updateFirst (p := pairPred p.id qid)
              (f := overwriteWith ans.answer ans.rating now) hr with hm | hm
          · exact ⟨r, hm, rfl, rfl, rfl, rfl, rfl⟩
          · exact ⟨_, hm, rfl, rfl, rfl, rfl, rfl⟩
        | none =>
          rw [ha] at h
          rw [Except.ok.injEq] at h
          have hdb : ({ db with
              answers := db.answers ++
                [freshRow db.nextAnswerId qid p.id ans.answer ans.rating now],
              nextAnswerId := db.nextAnswerId + 1 } : Store) = db' :=
            congrArg Prod.fst h
          rw [← hdb]
          exact ⟨r, by simp [hr], rfl, rfl, rfl, rfl, rfl⟩

/-- C4: a tuple whose `question_id` references no existing Question is
skipped without aborting the batch; the accepted pairs are exactly those
of the valid tuples (in order), and, when the valid tuples target
pairwise distinct, previously unanswered questions, exactly that many
answer rows are persisted. -/
theorem c4_invalid_question_skip :
    (∀ (po : String → Option Int) (now : Int) (p : Profile)
        (batch : List AnswerSubmit) (db : Store),
      ∃ db' saved,
        submit_answers po now (.profileUser p) batch db = .ok (db', saved)
        ∧ saved.map Prod.fst
            = (batch.filter (fun t =>
                decide (∃ q ∈ db.questions, q.id = t.question_id))).map
                (fun t => t.question_id)
        ∧ saved.length
            = (batch.filter (fun t =>
                decide (∃ q ∈ db.questions, q.id = t.question_id))).length)
    ∧
    (∀ (po : String → Option Int) (now : Int) (p : Profile)
        (batch : List AnswerSubmit) (db : Store),
      (batch.map (fun t => t.question_id)).Nodup →
      (∀ t ∈ batch, ∀ a ∈ db.answers,
        ¬(a.user_id = p.id ∧ a.question_id = t.question_id)) →
      ∃ db' saved,
        submit_answers po now (.profileUser p) batch db = .ok (db', saved)
        ∧ db'.answers.length
            = db.answers.length + (batch.filter (fun t =>
                decide (∃ q ∈ db.questions, q.id = t.question_id))).length) := by
  have hfiltereq : ∀ (db : Store) (batch : List AnswerSubmit),
      batch.filter (validTuple db.questions)
        = batch.filter (fun t =>
            decide (∃ q ∈ db.questions, q.id = t.question_id)) := by
    intro db batch
    refine List.filter_congr ?_
    intro t _
    rw [Bool.eq_iff_iff, validTuple_iff, decide_eq_true_eq]
  constructor
  · intro po now p batch db
    refine ⟨(batch.foldl (submitOne po now p.id) (db, [])).1,
      (batch.foldl (submitOne po now p.id) (db, [])).2, by
        unfold submit_answers; rfl, ?_, ?_⟩
    · rw [← hfiltereq]
      simpa using foldl_saved po now p.id batch db []
    · have h := foldl_saved po now p.id batch db []
      rw [hfiltereq] at h
      have := congrArg List.length h
      simpa using this
  · intro po now p batch db hnodup hfresh
    refine ⟨(batch.foldl (submitOne po now p.id) (db, [])).1,
      (batch.foldl (submitOne po now p.id) (db, [])).2, by
        unfold submit_answers; rfl, ?_⟩
    rw [← hfiltereq]
    refine foldl_growth po now p.id batch db [] hnodup ?_
    intro t ht
    exact List.find?_eq_none.mpr (fun a ha => by
      simpa [pairPred] using hfresh t ht a ha)

/-- C5: `submitted_at` resolution — absent means current server time; a
string parsing after the `Z → +00:00` substitution is used as parsed; a
string failing the first parse but parsing raw is used as parsed; a
string failing both parses degrades to the current server time; the
batch request never fails for a Profile user; and the resolved instant
is exactly what is stored on the created row. -/
theorem c5_timestamp_leniency :
    (∀ (po : String → Option Int) (now : Int),
      resolveSubmittedAt po now none = now)
    ∧ (∀ (po : String → Option Int) (now : Int) (s : String) (t : Int),
        s ≠ "" → po (s.replace zMark utcOffset) = some t →
        resolveSubmittedAt po now (some s) = t)
    ∧ (∀ (po : String → Option Int) (now : Int) (s : String) (t : Int),
        s ≠ "" → po (s.replace zMark utcOffset) = none → po s = some t →
        resolveSubmittedAt po now (some s) = t)
    ∧ (∀ (po : String → Option Int) (now : Int) (s : String),
        po (s.replace zMark utcOffset) = none → po s = none →
        resolveSubmittedAt po now (some s) = now)
    ∧ (∀ (po : String → Option Int) (now : Int) (p : Profile)
        (batch : List AnswerSubmit) (db : Store),
        ∃ out, submit_answers po now (.profileUser p) batch db = .ok out)
    ∧ (∀ (po : String → Option Int) (now : Int) (p : Profile)
        (t : AnswerSubmit) (db : Store) (q0 : Question),
        db.questions.find? (qPred t.question_id) = some q0 →
        db.answers.find? (pairPred p.id t.question_id) = none →
        ∃ db' saved,
          submit_answers po now (.profileUser p) [t] db = .ok (db', saved)
          ∧ ∃ r' ∈ db'.answers, r'.user_id = p.id
              ∧ r'.question_id = t.question_id
              ∧ r'.submitted_at
                  = some (resolveSubmittedAt po now t.submitted_at)) := by
  refine ⟨?_, ?_, ?_, ?_, ?_, ?_⟩
  · intro po now
    rfl
  · intro po now s t hs hp
    unfold resolveSubmittedAt
    dsimp only
    rw [if_neg hs, hp]
  · intro po now s t hs hp1 hp2
    unfold resolveSubmittedAt
    dsimp only
    rw [if_neg hs, hp1, hp2]
  · intro po now s hp1 hp2
    unfold resolveSubmittedAt
    dsimp only
    by_cases hs : s = ""
    · rw [if_pos hs]
    · rw [if_neg hs, hp1, hp2]
  · intro po now p batch db
    exact ⟨_, rfl⟩
  · intro po now p t db q0 hq ha
    refine ⟨_, _, submit_insert_case po now p t db hq ha, ?_⟩
    exact ⟨freshRow db.nextAnswerId t.question_id p.id t.answer t.rating
        (resolveSubmittedAt po now t.submitted_at),
      by simp, rfl, rfl, rfl⟩

/-- C2: for a non-empty visible question set, the reported
`completely_answered` flag is true iff every visible question has an
answer classified as "cannot answer" (rating present and 0, blank text)
or substantive (rating present and non-zero, non-blank text) and the
answered count equals the visible total; in particular an answer with
rating 0 and non-blank text makes the flag false. -/
theorem c2_completely_answered_iff :
    (∀ (db : Store) (questions : List Question) (p : Profile),
      questions ≠ [] → PairUnique db.answers →
      ((userCompletion db questions p).completely_answered = true ↔
        ((∀ q ∈ questions, ∃ a ∈ db.answers, a.user_id = p.id
            ∧ a.question_id = q.id ∧ (CantAnswerP a ∨ SubstantiveP a))
          ∧ (userCompletion db questions p).answered_count = questions.length)))
    ∧ (∀ (db : Store) (questions : List Question) (p : Profile) (q : Question)
        (a : UserAnswer) (s : String),
        questions ≠ [] → PairUnique db.answers → q ∈ questions →
        a ∈ db.answers → a.user_id = p.id → a.question_id = q.id →
        a.rating = some 0 → a.answer = some s → s.trim ≠ "" →
        (userCompletion db questions p).completely_answered = false) := by
  constructor
  · intro db questions p hne hu
    exact completely_answered_iff_aux db questions p (List.length_pos.mpr hne) hu
  · intro db questions p q a s hne hu hq hamem hauid haqid hrat hans hblank
    cases hb : (userCompletion db questions p).completely_answered with
    | false => rfl
    | true =>
      exfalso
      have hiff := (completely_answered_iff_aux db questions p
        (List.length_pos.mpr hne) hu).mp hb
      obtain ⟨a', hamem', hauid', haqid', hclass⟩ := hiff.1 q hq
      have haa : a' = a :=
        pair_eq_of_pairUnique hu hamem' hamem (hauid'.trans hauid.symm)
          (haqid'.trans haqid.symm)
      subst haa
      rcases hclass with hcant | hsub
      · rcases hcant.2 with hnone | ⟨s', hs', htrim⟩
        · rw [hans] at hnone; cases hnone
        · rw [hans] at hs'
          have : s' = s := (Option.some.inj hs').symm
          exact hblank (this ▸ htrim)
      · rcases hsub.1 with ⟨rv, hrv, hrvne⟩
        rw [hrat] at hrv
        exact hrvne (Option.some.inj hrv).symm

/-- C6: the reported completion percentage is
`round(100 · answered / total, 1)` (0 when no question is visible),
where the answered count is the number of visible questions having at
least one answer row by the user, regardless of classification. -/
theorem c6_completion_percentage :
    ∀ (db : Store) (questions : List Question) (p : Profile),
      (questions.map (fun q => q.id)).Nodup →
      ((userCompletion db questions p).answered_count
          = (questions.filter (fun q =>
              decide (∃ a, a ∈ db.answers ∧ a.user_id = p.id
                ∧ a.question_id = q.id))).length
        ∧ (userCompletion db questions p).completion_percentage
          = (if questions.length = 0 then 0
             else pyRound
               ((100 * ((userCompletion db questions p).answered_count : ℚ))
                 / (questions.length : ℚ)) 1)) := by
  intro db questions p hnodup
  constructor
  · exact answeredCount_eq db questions p.id hnodup
  · show completionPercentage db questions p.id = _
    unfold completionPercentage
    rcases Nat.eq_zero_or_pos questions.length with h0 | hpos
    · rw [h0]
      simp
    · rw [if_pos hpos, if_neg (Nat.pos_iff_ne_zero.mp hpos)]
      show pyRound (((answeredCount db questions p.id : ℚ)
        / (questions.length : ℚ)) * 100) 1 = pyRound
          ((100 * ((answeredCount db questions p.id : ℚ)))
            / (questions.length : ℚ)) 1
      congr 1
      ring

/-- C7: the visible question set of a user consists of the questions
whose section's `company_id` equals the user's company or is null; a
null-company (global) section is visible to every user, a user without a
company sees every section, and the admin-side completion query uses the
same section filter. -/
theorem c7_section_visibility :
    (∀ (db : Store) (cid : Option Int) (q : Question),
      q ∈ visibleQuestions db (visibleSections db cid) ↔
        (q ∈ db.questions ∧ ∃ s ∈ db.sections, q.section_id = some s.id ∧
          (∀ c : Int, cid = some c →
            (s.company_id = some c ∨ s.company_id = none))))
    ∧ (∀ (db : Store) (cid : Option Int) (s : Section),
        s ∈ db.sections → s.company_id = none → s ∈ visibleSections db cid)
    ∧ (∀ db : Store, visibleSections db none = db.sections)
    ∧ (∀ (db : Store) (c : Int),
        visibleSectionsAdmin db c = visibleSections db (some c)) := by
  have hsec : ∀ (db : Store) (cid : Option Int) (s : Section),
      s ∈ visibleSections db cid ↔
        (s ∈ db.sections ∧ ∀ c : Int, cid = some c →
          (s.company_id = some c ∨ s.company_id = none)) := by
    intro db cid s
    cases cid with
    | none => simp [visibleSections]
    | some c =>
      simp only [visibleSections, List.mem_filter, decide_eq_true_eq]
      constructor
      · rintro ⟨hm, hc⟩
        exact ⟨hm, fun c' hc' => (Option.some.inj hc') ▸ hc⟩
      · rintro ⟨hm, hall⟩
        exact ⟨hm, hall c rfl⟩
  refine ⟨?_, ?_, ?_, ?_⟩
  · intro db cid q
    rw [visibleQuestions_eq, List.mem_filter]
    cases hqs : q.section_id with
    | none =>
      simp [hqs]
    | some sid =>
      simp only [hqs, decide_eq_true_eq]
      constructor
      · rintro ⟨hm, hmem⟩
        rcases List.mem_map.mp hmem with ⟨s, hs, hsid⟩
        have hs' := (hsec db cid s).mp hs
        exact ⟨hm, s, hs'.1, by rw [hsid], hs'.2⟩
      · rintro ⟨hm, s, hsmem, hsid, hcond⟩
        refine ⟨hm, ?_⟩
        have : s ∈ visibleSections db cid := (hsec db cid s).mpr ⟨hsmem, hcond⟩
        have hsid' : sid = s.id := Option.some.inj hsid
        exact hsid' ▸ List.mem_map_of_mem _ this
  · intro db cid s hm hnone
    exact (hsec db cid s).mpr ⟨hm, fun c _ => Or.inr hnone⟩
  · intro db
    rfl
  · intro db c
    rfl

/-- C8: per question, `avg_rating` is the mean of the present ratings
rounded (half-to-even) to 2 decimals and absent when no rating exists;
`std_dev` is the sample standard deviation rounded to 2 decimals,
present exactly when at least 2 rated answers exist; the rounded root is
within half a hundredth of the true square root of the sample variance;
and ratings `[3, 1, -2]` give `avg_rating = 0.67`, `std_dev = 2.52`,
while a single rating gives no `std_dev`. -/
theorem c8_rating_statistics :
    (∀ (db : Store) (q : Question),
      questionStats db q
        = (avgRatingOf (ratingsOf (db.answers.filter
              (fun a => decide (a.question_id = q.id)))),
           stdDevOf (ratingsOf (db.answers.filter
              (fun a => decide (a.question_id = q.id))))))
    ∧ (∀ ratings : List Int,
        (avgRatingOf ratings = none ↔ ratings = [])
        ∧ (ratings ≠ [] →
            avgRatingOf ratings = some (pyRound (listMean ratings) 2)))
    ∧ (∀ ratings : List Int,
        (stdDevOf ratings = none ↔ ratings.length < 2)
        ∧ (2 ≤ ratings.length →
            stdDevOf ratings = some (sqrtRound2 (sampleVariance ratings))))
    ∧ (∀ ratings : List Int, 2 ≤ ratings.length → 0 ≤ sampleVariance ratings)
    ∧ (∀ v : ℚ, 0 ≤ v →
        10000 * v ≤ (100 * sqrtRound2 v + 1 / 2) ^ 2
        ∧ (1 ≤ sqrtK v → (100 * sqrtRound2 v - 1 / 2) ^ 2 ≤ 10000 * v))
    ∧ avgRatingOf [3, 1, -2] = some (67 / 100)
    ∧ stdDevOf [3, 1, -2] = some (63 / 25)
    ∧ stdDevOf [2] = none
    ∧ questionStats dbStats q1 = (some (67 / 100), some (63 / 25))
    ∧ (questionStats dbStats q2).2 = none := by
  have havg : avgRatingOf [3, 1, -2] = some (67 / 100) := by
    norm_num [avgRatingOf, listMean, pyRound, roundHalfEven, round_eq]
  have hstd : stdDevOf [3, 1, -2] = some (63 / 25) := by
    have h1 : sampleVariance [3, 1, -2] = 19 / 3 := by
      norm_num [sampleVariance, listMean]
    have h2 : sqrtK0 (19 / 3 : ℚ) = 251 := by
      unfold sqrtK0
      have hf : (⌊(10000 : ℚ) * (19 / 3)⌋) = 63333 := by norm_num
      rw [hf]
      have ht : (63333 : ℤ).toNat = 63333 := rfl
      rw [ht]
      norm_num [Nat.sqrt]
    have h3 : sqrtK (19 / 3 : ℚ) = 252 := by
      unfold sqrtK
      rw [h2]
      norm_num
    have h4 : stdDevOf [3, 1, -2]
        = some (sqrtRound2 (sampleVariance [3, 1, -2])) := by
      norm_num [stdDevOf]
    rw [h4, h1]
    unfold sqrtRound2
    rw [h3]
    norm_num
  refine ⟨?_, ?_, ?_, ?_, ?_, havg, hstd, ?_, ?_, ?_⟩
  · intro db q
    rfl
  · intro ratings
    constructor
    · unfold avgRatingOf
      by_cases h : ratings.isEmpty
      · rw [if_pos h]
        simp [List.isEmpty_iff.mp h]
      · rw [if_neg h]
        simp only [reduceCtorEq, false_iff]
        intro hc
        exact h (by simp [hc])
    · intro h
      unfold avgRatingOf
      rw [if_neg (by simpa [List.isEmpty_iff] using h)]
  · intro ratings
    constructor
    · unfold stdDevOf
      by_cases h : ratings.length > 1
      · rw [if_pos h]
        simp only [reduceCtorEq, false_iff]
        omega
      · rw [if_neg h]
        simp only [true_iff]
        omega
    · intro h
      unfold stdDevOf
      rw [if_pos (by omega)]
  · intro ratings h
    unfold sampleVariance
    apply div_nonneg
    · apply List.sum_nonneg
      intro x hx
      rcases List.mem_map.mp hx with ⟨y, _, rfl⟩
      exact sq_nonneg _
    · have h2 : (2 : ℚ) ≤ (ratings.length : ℚ) := by exact_mod_cast h
      linarith
  · intro v hv
    have h100 : (100 : ℚ) * sqrtRound2 v = (sqrtK v : ℚ) := by
      unfold sqrtRound2
      ring
    rw [h100]
    exact sqrtK_bracket v hv
  · norm_num [stdDevOf]
  · have hwire : questionStats dbStats q1
        = (avgRatingOf (ratingsOf (dbStats.answers.filter
            (fun a => decide (a.question_id = q1.id)))),
           stdDevOf (ratingsOf (dbStats.answers.filter
            (fun a => decide (a.question_id = q1.id))))) := rfl
    have hfil : ratingsOf (dbStats.answers.filter
        (fun a => decide (a.question_id = q1.id))) = [3, 1, -2] := by decide
    rw [hwire, hfil, havg, hstd]
  · have hfil : ratingsOf (dbStats.answers.filter
        (fun a => decide (a.question_id = q2.id))) = [2] := by decide
    have hwire : (questionStats dbStats q2).2
        = stdDevOf (ratingsOf (dbStats.answers.filter
            (fun a => decide (a.question_id = q2.id)))) := rfl
    rw [hwire, hfil]
    norm_num [stdDevOf]

/-- C3 counterexample: in the store with no Questions at all (where
vacuously no Question has any Answer) the report endpoint returns the
404 "No questions found" error — an error outcome, not the "no data"
result the claim promises for that state.  No external call is made
either way. -/
theorem c3_no_questions_counterexample :
    generate_collective_feedback_report (fun _ => Except.ok ("s")) dbEmpty
        = (.httpError 404 ("No questions found"), [], 0)
      ∧ (generate_collective_feedback_report (fun _ => Except.ok ("s")) dbEmpty).1
          ≠ ReportOutcome.noData ("No data available for collective report.") := by
  constructor
  · rfl
  · intro h
    cases h

/-- C3 (amended): for every store holding at least one Question in
which no Question has any Answer, report generation returns the explicit
"no data" outcome, sends no prompt to the text-generation collaborator
and sends no e-mail — for every behaviour of the collaborator.  (With no
Questions at all the endpoint instead fails with a 404, see the
counterexample.) -/
theorem c3_no_data_fallback :
    ∀ (gen : String → Except String String) (db : Store),
      db.questions ≠ [] →
      (∀ q ∈ db.questions,
        db.answers.filter (fun a => decide (a.question_id = q.id)) = []) →
      generate_collective_feedback_report gen db
        = (.noData ("No data available for collective report."), [], 0) := by
  intro gen db hne hnoans
  unfold generate_collective_feedback_report
  have hqe : db.questions.isEmpty = false := by
    cases h : db.questions with
    | nil => exact absurd h hne
    | cons a l => rfl
  rw [if_neg (by simp [hqe])]
  have hbuild := buildReport_no_answers gen db 1 db.questions hnoans
  rw [hbuild]
  rfl

/-- C9: on the success path, deleting a Company nulls the company
reference on every dependent User, Profile and Section (the handler
updates users and sections, the declared `ON DELETE SET NULL` foreign
keys cover profiles), keeps every other field and every row, leaves
questions and answers untouched, and removes exactly the company row. -/
theorem c9_company_delete_nulls :
    ∀ (db : Store) (cid : Int) (db' : Store),
      delete_company db cid = .ok db' →
      db'.users.length = db.users.length
      ∧ db'.profiles.length = db.profiles.length
      ∧ db'.sections.length = db.sections.length
      ∧ db'.questions = db.questions
      ∧ db'.answers = db.answers
      ∧ (∀ u ∈ db.users, ∃ u' ∈ db'.users,
          u'.id = u.id ∧ u'.email = u.email ∧ u'.name = u.name
            ∧ u'.hashed_password = u.hashed_password
            ∧ u'.company_id
                = (if u.company_id = some cid then none else u.company_id))
      ∧ (∀ pr ∈ db.profiles, ∃ pr' ∈ db'.profiles,
          pr'.id = pr.id ∧ pr'.email = pr.email ∧ pr'.name = pr.name
            ∧ pr'.company_id
                = (if pr.company_id = some cid then none else pr.company_id))
      ∧ (∀ s ∈ db.sections, ∃ s' ∈ db'.sections,
          s'.id = s.id ∧ s'.label = s.label ∧ s'.title = s.title
            ∧ s'.company_id
                = (if s.company_id = some cid then none else s.company_id))
      ∧ (∀ c : Company, c ∈ db'.companies ↔ (c ∈ db.companies ∧ c.id ≠ cid)) := by
  intro db cid db' h
  unfold delete_company at h
  cases hc : db.companies.find? (fun c => decide (c.id = cid)) with
  | none => rw [hc] at h; cases h
  | some c0 =>
    rw [hc] at h
    dsimp only at h
    rw [Except.ok.injEq] at h
    subst h
    refine ⟨by simp, by simp, by simp, rfl, rfl, ?_, ?_, ?_, ?_⟩
    · intro u hu
      refine ⟨if u.company_id = some cid then { u with company_id := none }
          else u, List.mem_map_of_mem _ hu, ?_, ?_, ?_, ?_, ?_⟩
      all_goals by_cases hcid : u.company_id = some cid <;> simp [hcid]
    · intro pr hpr
      refine ⟨if pr.company_id = some cid then { pr with company_id := none }
          else pr, List.mem_map_of_mem _ hpr, ?_, ?_, ?_, ?_⟩
      all_goals by_cases hcid : pr.company_id = some cid <;> simp [hcid]
    · intro s hs
      refine ⟨if s.company_id = some cid then { s with company_id := none }
          else s, List.mem_map_of_mem _ hs, ?_, ?_, ?_, ?_⟩
      all_goals by_cases hcid : s.company_id = some cid <;> simp [hcid]
    · intro c
      simp [List.mem_filter]

/-! ## Witnesses -/

/-- Witness for C1 at the concrete store `dbW1`: question 1 exists, the
pair (u-1, 1) is already answered by `ansOld`, and the batch `[tSub1]`
overwrites it in place. -/
theorem c1_answer_upsert_witness :
    ∃ db', submit_answers (fun _ => none) 7 (.profileUser profile1) [tSub1] dbW1
        = .ok (db', [(tSub1.question_id, ansOld.id)])
      ∧ db'.answers.length = dbW1.answers.length
      ∧ (db'.answers.filter (pairPred profile1.id tSub1.question_id)).length = 1
      ∧ (∀ r' ∈ db'.answers, r'.user_id = profile1.id →
          r'.question_id = tSub1.question_id →
          r'.id = ansOld.id ∧ r'.answer = some tSub1.answer
            ∧ r'.rating = tSub1.rating
            ∧ r'.submitted_at
                = some (resolveSubmittedAt (fun _ => none) 7 tSub1.submitted_at)
            ∧ r'.feedback = ansOld.feedback
            ∧ r'.feedback_generated = ansOld.feedback_generated) :=
  c1_answer_upsert.2.1 (fun _ => none) 7 profile1 tSub1 dbW1 q1 ansOld
    (by decide) (by decide) (by decide) rfl rfl

/-- Witness for C2 at `dbComplete`: three visible questions, two
substantive answers and one explicit "cannot answer". -/
theorem c2_completely_answered_iff_witness :
    (userCompletion dbComplete [q1, q2, q3] profile1).completely_answered = true ↔
      ((∀ q ∈ [q1, q2, q3], ∃ a ∈ dbComplete.answers, a.user_id = profile1.id
          ∧ a.question_id = q.id ∧ (CantAnswerP a ∨ SubstantiveP a))
        ∧ (userCompletion dbComplete [q1, q2, q3] profile1).answered_count
            = ([q1, q2, q3] : List Question).length) :=
  c2_completely_answered_iff.1 dbComplete [q1, q2, q3] profile1
    (by decide) (by decide)

/-- Witness for C3 (amended) at `db3`: three questions, none of them
answered — the report degrades to the explicit no-data outcome with no
prompt and no e-mail. -/
theorem c3_no_data_fallback_witness :
    generate_collective_feedback_report (fun _ => Except.ok ("s")) db3
      = (.noData ("No data available for collective report."), [], 0) :=
  c3_no_data_fallback (fun _ => Except.ok ("s")) db3 (by decide) (by decide)

/-- Witness for C4 at `db3`: the batch `[tSub1, tSubBad, tSub3]` holds
one tuple with a dangling question id among two valid ones and persists
exactly two answers. -/
theorem c4_invalid_question_skip_witness :
    ∃ db' saved,
      submit_answers (fun _ => none) 7 (.profileUser profile1)
          [tSub1, tSubBad, tSub3] db3 = .ok (db', saved)
      ∧ db'.answers.length
          = db3.answers.length + (([tSub1, tSubBad, tSub3].filter (fun t =>
              decide (∃ q ∈ db3.questions, q.id = t.question_id))).length) :=
  c4_invalid_question_skip.2 (fun _ => none) 7 profile1 [tSub1, tSubBad, tSub3]
    db3 (by decide) (by decide)

/-- Witness for C5: the spec's own leniency scenario — a parser that
rejects `"not-a-date"` (with or without the `Z` substitution) makes the
request store the current server time instead of failing. -/
theorem c5_timestamp_leniency_witness :
    resolveSubmittedAt (fun _ => none) 7 (some ("not-a-date")) = 7 :=
  c5_timestamp_leniency.2.2.2.1 (fun _ => none) 7 "not-a-date" rfl rfl

/-- Witness for C6 at `dbTwoOfThree`: questions 1 and 2 answered, question
3 untouched. -/
theorem c6_completion_percentage_witness :
    (userCompletion dbTwoOfThree [q1, q2, q3] profile1).answered_count
        = (([q1, q2, q3] : List Question).filter (fun q =>
            decide (∃ a, a ∈ dbTwoOfThree.answers ∧ a.user_id = profile1.id
              ∧ a.question_id = q.id))).length
      ∧ (userCompletion dbTwoOfThree [q1, q2, q3] profile1).completion_percentage
        = (if ([q1, q2, q3] : List Question).length = 0 then 0
           else pyRound
             ((100 * ((userCompletion dbTwoOfThree [q1, q2, q3] profile1).answered_count : ℚ))
               / (([q1, q2, q3] : List Question).length : ℚ)) 1) :=
  c6_completion_percentage dbTwoOfThree [q1, q2, q3] profile1 (by decide)

/-- Witness for C7: the global section `sectionG` is visible to a user
of company 5 (to which it does not belong). -/
theorem c7_section_visibility_witness :
    sectionG ∈ visibleSections db3 (some 5) :=
  c7_section_visibility.2.1 db3 (some 5) sectionG (by decide) rfl

/-- Witness for C8: with the three ratings `[3, 1, -2]` present, the
average is the rounded mean. -/
theorem c8_rating_statistics_witness :
    avgRatingOf [3, 1, -2] = some (pyRound (listMean [3, 1, -2]) 2) :=
  (c8_rating_statistics.2.1 [3, 1, -2]).2 (by decide)

/-- The store `dbDel` after `delete_company _ 1`: company reference
nulled on the user, the profile and the company section; company row
gone; everything else untouched. -/
def dbDelAfter : Store :=
  { questions := [q1], answers := [ansOld],
    users := [{ user1 with company_id := none }],
    profiles := [{ profile1 with company_id := none }],
    companies := [],
    sections := [{ section1 with company_id := none }, sectionG],
    nextAnswerId := 100 }

/-- Witness for C9 at `dbDel`: deleting company 1 nulls the references
on the dependent user, profile and section and deletes only the company
row. -/
theorem c9_company_delete_nulls_witness :
    dbDelAfter.users.length = dbDel.users.length
    ∧ dbDelAfter.profiles.length = dbDel.profiles.length
    ∧ dbDelAfter.sections.length = dbDel.sections.length
    ∧ dbDelAfter.questions = dbDel.questions
    ∧ dbDelAfter.answers = dbDel.answers
    ∧ (∀ u ∈ dbDel.users, ∃ u' ∈ dbDelAfter.users,
        u'.id = u.id ∧ u'.email = u.email ∧ u'.name = u.name
          ∧ u'.hashed_password = u.hashed_password
          ∧ u'.company_id
              = (if u.company_id = some 1 then none else u.company_id))
    ∧ (∀ pr ∈ dbDel.profiles, ∃ pr' ∈ dbDelAfter.profiles,
        pr'.id = pr.id ∧ pr'.email = pr.email ∧ pr'.name = pr.name
          ∧ pr'.company_id
              = (if pr.company_id = some 1 then none else pr.company_id))
    ∧ (∀ s ∈ dbDel.sections, ∃ s' ∈ dbDelAfter.sections,
        s'.id = s.id ∧ s'.label = s.label ∧ s'.title = s.title
          ∧ s'.company_id
              = (if s.company_id = some 1 then none else s.company_id))
    ∧ (∀ c : Company, c ∈ dbDelAfter.companies ↔ (c ∈ dbDel.companies ∧ c.id ≠ 1)) :=
  c9_company_delete_nulls dbDel 1 dbDelAfter rfl

/-- The single answer row of `dbW1` after `[tSub1]` is submitted: text,
rating and timestamp overwritten, feedback fields untouched. -/
def ansOldUpd : UserAnswer :=
  { ansOld with
      answer := some tSub1.answer
      rating := tSub1.rating
      submitted_at := some (7 : Int) }

/-- The store `dbW1` after the batch `[tSub1]` is submitted. -/
def dbW1After : Store := { dbW1 with answers := [ansOldUpd] }

/-- Witness for C10 at `dbW1`: after the batch overwrites `ansOld`, its
feedback fields survive on the row with the same id. -/
theorem c10_feedback_frame_witness :
    ∃ r' ∈ dbW1After.answers,
      r'.id = ansOld.id ∧ r'.user_id = ansOld.user_id
        ∧ r'.question_id = ansOld.question_id
        ∧ r'.feedback = ansOld.feedback
        ∧ r'.feedback_generated = ansOld.feedback_generated :=
  c10_feedback_frame.1 (fun _ => none) 7 profile1 [tSub1] dbW1 dbW1After
    [(tSub1.question_id, ansOld.id)] rfl ansOld (by decide)

end Survey
